import Mathlib

/-!
Verification of the Chillers-Dashboard data pipeline.

The Python modules `_executores/tratamento_dados.py`,
`_executores/estimativas_dados.py` and `_executores/validacao_acuracia.py`
are shallowly embedded below.  Numeric cells are modelled as exact
rationals (`ℚ`); nullable cells (pandas `NaN`) as `Option ℚ`; timestamps
as integers (`ℤ`, an instant on a linear time axis) or as rationals in
minutes where the code works in minutes.  Python's `round(x, 2)`
(round-half-to-even at two decimals) is modelled exactly on `ℚ`.
String-to-datetime and string-to-number parsers (`pd.to_datetime`,
`pd.to_numeric`) are abstracted as `Option`-valued function parameters;
everything the parsers feed is kept concrete.
-/

/-- Round-half-to-even to an integer, the rounding used by Python's
built-in `round`. -/
def roundHalfEven (x : ℚ) : ℤ :=
  let f := Int.floor x
  let r := x - (f : ℚ)
  if r < 1/2 then f
  else if 1/2 < r then f + 1
  else if f % 2 = 0 then f else f + 1

/-- Python's `round(x, 2)`: two-decimal round-half-to-even. -/
def pyRound2 (x : ℚ) : ℚ := ((roundHalfEven (x * 100) : ℤ) : ℚ) / 100

/-- Arithmetic mean of a list (pandas `Series.mean`); callers guard
against the empty list. -/
def media (xs : List ℚ) : ℚ := xs.sum / (xs.length : ℚ)

/-- Population variance (divisor `n`), the square of pandas
`Series.std(ddof=0)`. -/
def varPop (xs : List ℚ) : ℚ :=
  (xs.map (fun x => (x - media xs) ^ 2)).sum / (xs.length : ℚ)

/-- Linear-interpolation quantile, as computed by
`pandas.Series.quantile` (and `numpy`) with the default interpolation:
sort, take position `q * (n - 1)`, interpolate between the neighbouring
order statistics.  Callers guard against the empty list. -/
def quantil (q : ℚ) (xs : List ℚ) : ℚ :=
  let s := List.insertionSort (· ≤ ·) xs
  let n := s.length
  let h : ℚ := q * ((n : ℚ) - 1)
  let f : ℤ := Int.floor h
  let a := s.getD f.toNat 0
  let b := s.getD (f.toNat + 1) a
  a + (h - (f : ℚ)) * (b - a)

/-- `pandas.Series.median`: the 1/2 linear-interpolation quantile. -/
def mediana (xs : List ℚ) : ℚ := quantil (1/2) xs

/-- The candidate sampling steps of
`estimar_intervalo_de_amostragem_minutos` (minutes). -/
def candidatosPasso : List ℚ := [1, 5, 10, 15, 30, 60]

/-- `np.argmin(np.abs(candidatos - med))` followed by indexing: the
first candidate whose distance to `med` is minimal. -/
def passoMaisProximo (med : ℚ) : ℚ :=
  candidatosPasso.foldl (fun best c => if |c - med| < |best - med| then c else best) 1

/-- Consecutive differences `series.diff().iloc[1:]` of a timestamp
series already expressed in minutes. -/
def deltasConsecutivos (ts : List ℚ) : List ℚ :=
  (ts.zip ts.tail).map (fun p => p.2 - p.1)

/-- `estimar_intervalo_de_amostragem_minutos`
(`tratamento_dados.py`, lines 217-229): consecutive deltas in minutes,
keep `0 < d ≤ 60`, default `1.0` when none remain, otherwise snap the
median to the nearest candidate step.  (The data-quality warning on
line 226-228 has no effect on the returned value.) -/
def estimar_intervalo_de_amostragem_minutos (ts : List ℚ) : ℚ :=
  if ((deltasConsecutivos ts).filter (fun d => 0 < d ∧ d ≤ 60)).isEmpty then 1
  else passoMaisProximo (mediana ((deltasConsecutivos ts).filter (fun d => 0 < d ∧ d ≤ 60)))

-- Helper facts about the fold in `passoMaisProximo`.

lemma foldl_passo_mem (med : ℚ) :
    ∀ (l : List ℚ) (b : ℚ),
      l.foldl (fun best c => if |c - med| < |best - med| then c else best) b = b ∨
      l.foldl (fun best c => if |c - med| < |best - med| then c else best) b ∈ l := by
  intro l
  induction l with
  | nil => intro b; exact Or.inl rfl
  | cons c l ih =>
    intro b
    simp only [List.foldl_cons]
    rcases ih (if |c - med| < |b - med| then c else b) with h | h
    · rw [h]
      by_cases hc : |c - med| < |b - med|
      · simp [hc]
      · simp [hc]
    · exact Or.inr (List.mem_cons_of_mem _ h)

lemma foldl_passo_le (med : ℚ) :
    ∀ (l : List ℚ) (b : ℚ),
      |l.foldl (fun best c => if |c - med| < |best - med| then c else best) b - med| ≤ |b - med| ∧
      ∀ c ∈ l,
        |l.foldl (fun best c => if |c - med| < |best - med| then c else best) b - med| ≤ |c - med| := by
  intro l
  induction l with
  | nil => intro b; exact ⟨le_refl _, by simp⟩
  | cons c l ih =>
    intro b
    simp only [List.foldl_cons]
    by_cases hc : |c - med| < |b - med|
    · simp only [hc, if_true]
      refine ⟨(ih c).1.trans hc.le, ?_⟩
      intro d hd
      rcases List.mem_cons.mp hd with h | h
      · exact h ▸ (ih c).1
      · exact (ih c).2 d h
    · simp only [hc, if_false]
      refine ⟨(ih b).1, ?_⟩
      intro d hd
      rcases List.mem_cons.mp hd with h | h
      · exact h ▸ ((ih b).1.trans (not_lt.mp hc))
      · exact (ih b).2 d h

/-- C7 — `estimar_intervalo_de_amostragem_minutos` computes consecutive
deltas in minutes, discards deltas that are `≤ 0` or `> 60`, returns the
default `1.0` when no deltas remain, and otherwise snaps the median `m`
of the remaining deltas to an element of `{1, 5, 10, 15, 30, 60}` at
minimal absolute distance `|candidate − m|`. -/
theorem c7_estimativa_passo (ts : List ℚ) :
    (((deltasConsecutivos ts).filter (fun d => 0 < d ∧ d ≤ 60)).isEmpty →
      estimar_intervalo_de_amostragem_minutos ts = 1) ∧
    (¬ ((deltasConsecutivos ts).filter (fun d => 0 < d ∧ d ≤ 60)).isEmpty →
      estimar_intervalo_de_amostragem_minutos ts =
        passoMaisProximo (mediana ((deltasConsecutivos ts).filter (fun d => 0 < d ∧ d ≤ 60)))) ∧
    (∀ m : ℚ, passoMaisProximo m ∈ candidatosPasso) ∧
    (∀ m : ℚ, ∀ c ∈ candidatosPasso, |passoMaisProximo m - m| ≤ |c - m|) := by
  refine ⟨?_, ?_, ?_, ?_⟩
  · intro h
    unfold estimar_intervalo_de_amostragem_minutos
    rw [if_pos h]
  · intro h
    unfold estimar_intervalo_de_amostragem_minutos
    rw [if_neg h]
  · intro m
    rcases foldl_passo_mem m candidatosPasso 1 with h1 | h1
    · rw [passoMaisProximo, h1]; simp [candidatosPasso]
    · exact h1
  · intro m c hc
    exact (foldl_passo_le m candidatosPasso 1).2 c hc

/-- C7 witness: timestamps 0 and 3 minutes give one delta (3), median 3,
and the result snaps to 1 (the first of the two equally-near candidates
1 and 5, as `np.argmin` takes the first minimum). -/
theorem c7_testemunha :
    estimar_intervalo_de_amostragem_minutos [0, 3] = passoMaisProximo (mediana [3]) ∧
    |passoMaisProximo (3 : ℚ) - 3| ≤ |(5 : ℚ) - 3| := by
  have h := c7_estimativa_passo [0, 3]
  have hf : ((deltasConsecutivos [0, 3]).filter (fun d => 0 < d ∧ d ≤ 60)) = [3] := by
    norm_num [deltasConsecutivos]
  constructor
  · have h2 := h.2.1 (by rw [hf]; simp)
    rwa [hf] at h2
  · exact h.2.2.2 3 5 (by norm_num [candidatosPasso])

/-!
## Accuracy validator (`validacao_acuracia.py`)

`atualizar_historico_acuracia` joins the historical table with the
estimate table on `(Ano, Mês)` and computes, per joined row, percentage
errors and the utilization factor.  The per-row metric computations of
lines 88-106 are embedded; nullable cells are `Option ℚ` (pandas `NaN`
is `none`, and `replace(0, np.nan)` makes a zero denominator `none`,
which propagates to a `none` metric).
-/

/-- Percentage error `(estimado − real) / real * 100` with the
denominator replaced by null when it is exactly zero
(`validacao_acuracia.py`, lines 89-102; used for consumption, hours and
temperature). A null operand propagates to a null result, as NaN does in
pandas. -/
def erro_percentual (estimado real : Option ℚ) : Option ℚ :=
  match estimado, real with
  | some e, some r => if r = 0 then none else some ((e - r) / r * 100)
  | _, _ => none

/-- Utilization factor `Consumo / (Potência Média * Horas)` with a zero
denominator replaced by null (`validacao_acuracia.py`, lines 104-106). -/
def fator_utilizacao (consumo pot horas : Option ℚ) : Option ℚ :=
  match consumo, pot, horas with
  | some c, some p, some h => if p * h = 0 then none else some (c / (p * h))
  | _, _, _ => none

/-- C8 — each percentage error equals `(estimated − real) / real * 100`
and the utilization factor equals `consumptionReal / (avgPowerKW *
hoursReal)`; whenever a denominator is exactly zero the corresponding
metric is null (both functions are total, so no exception and no
infinity); in particular `consumptionReal = 0` gives a null consumption
error. -/
theorem c8_metricas_acuracia (e r c p h : ℚ) :
    (r ≠ 0 → erro_percentual (some e) (some r) = some ((e - r) / r * 100)) ∧
    erro_percentual (some e) (some 0) = none ∧
    (∀ x : Option ℚ, erro_percentual x none = none) ∧
    (∀ x : Option ℚ, erro_percentual none x = none) ∧
    (p * h ≠ 0 → fator_utilizacao (some c) (some p) (some h) = some (c / (p * h))) ∧
    (p * h = 0 → fator_utilizacao (some c) (some p) (some h) = none) ∧
    (∀ x y : Option ℚ, fator_utilizacao none x y = none) := by
  refine ⟨fun hr => by simp [erro_percentual, hr], by simp [erro_percentual], ?_, ?_, ?_, ?_, ?_⟩
  · intro x; cases x <;> simp [erro_percentual]
  · intro x; simp [erro_percentual]
  · intro hph; simp [fator_utilizacao, hph]
  · intro hph; simp [fator_utilizacao, hph]
  · intro x y; simp [fator_utilizacao]

/-- C8 witness: a month with real consumption 5 and estimate 10 gets a
+100% error; a month with real consumption 0 gets a null error rather
than an exception or an infinity; average power 2 with 0 real hours
gives a null utilization factor. -/
theorem c8_testemunha :
    erro_percentual (some 10) (some 5) = some 100 ∧
    erro_percentual (some 10) (some 0) = none ∧
    fator_utilizacao (some 3) (some 2) (some 0) = none := by
  have h := c8_metricas_acuracia 10 5 3 2 0
  refine ⟨?_, h.2.1, h.2.2.2.2.2.1 (by norm_num)⟩
  rw [h.1 (by norm_num)]
  norm_num

/-!
## Bias-correction feedback loop (`estimativas_dados.py`)

`carregar_vies_historico` (lines 95-113) reads the accuracy ledger,
keeps only rows with `Tipo == 'Real'`, and produces a global bias and a
per-month bias dictionary.  The CSV rows are embedded as `LinhaAcuracia`
records; the per-month dictionary is embedded extensionally as a
function `String → Option ℚ` (months absent from the source dictionary
have fewer than 3 qualifying rows, for which the function returns
`none`, matching `dict.get`'s default path).
-/

/-- A row of `Historico_Precisao_Estimativas.csv` as used by
`carregar_vies_historico`: month label, `Tipo`, and
`Erro Consumo (%)`. -/
structure LinhaAcuracia where
  mes : String
  tipo : String
  erroConsumoPct : ℚ
deriving DecidableEq

/-- `carregar_vies_historico` (`estimativas_dados.py`, lines 95-113):
filter to `Tipo == 'Real'`; only when at least 6 such rows exist, set
the global bias to the mean error and fill the per-month means for the
months having at least 3 such rows.  Note that the per-month loop runs
inside the `shape[0] >= 6` test. -/
def carregar_vies_historico (ledger : List LinhaAcuracia) : Option ℚ × (String → Option ℚ) :=
  if 6 ≤ (ledger.filter (fun l => l.tipo = "Real")).length then
    (some (media ((ledger.filter (fun l => l.tipo = "Real")).map (fun l => l.erroConsumoPct))),
     fun mes =>
       if 3 ≤ ((ledger.filter (fun l => l.tipo = "Real")).filter (fun l => l.mes = mes)).length then
         some (media (((ledger.filter (fun l => l.tipo = "Real")).filter
           (fun l => l.mes = mes)).map (fun l => l.erroConsumoPct)))
       else none)
  else (none, fun _ => none)

/-- `vies_mensal.get(mes_nome, vies_global)` — the bias actually applied
to a month: the per-month bias when present, else the global bias
(`estimativas_dados.py`, lines 169 and 217). -/
def vies_ajuste (viesGlobal : Option ℚ) (viesMensal : String → Option ℚ)
    (mes : String) : Option ℚ :=
  match viesMensal mes with
  | some v => some v
  | none => viesGlobal

/-- C3 counterexample — a ledger of 5 'Real' rows, 3 of them for
Janeiro: the claim says Janeiro (≥ 3 qualifying rows) gets a per-month
bias equal to their mean, but the code computes per-month biases only
inside the `>= 6` global test, so the per-month bias is null. -/
theorem c3_contraexemplo :
    ((([⟨"Janeiro", "Real", 10⟩, ⟨"Janeiro", "Real", 20⟩, ⟨"Janeiro", "Real", 30⟩,
        ⟨"Fevereiro", "Real", 5⟩, ⟨"Fevereiro", "Real", 15⟩] :
        List LinhaAcuracia).filter (fun l => l.tipo = "Real")).filter
          (fun l => l.mes = "Janeiro")).length = 3 ∧
    (carregar_vies_historico
        [⟨"Janeiro", "Real", 10⟩, ⟨"Janeiro", "Real", 20⟩, ⟨"Janeiro", "Real", 30⟩,
         ⟨"Fevereiro", "Real", 5⟩, ⟨"Fevereiro", "Real", 15⟩]).2 "Janeiro" = none := by
  constructor
  · decide
  · norm_num +decide [carregar_vies_historico]

/-- C3 (amended) — over the ledger restricted to 'Real' rows: the global
bias is the mean error when at least 6 rows qualify and null otherwise;
when the global threshold is met, a month with at least 3 qualifying
rows gets the mean error of those rows as per-month bias and a month
with fewer gets none; and wherever the per-month bias is absent (in
particular any month with fewer than 3 qualifying rows), the applied
bias falls back to the global bias. -/
theorem c3_vies_historico (ledger : List LinhaAcuracia) (mes : String) :
    (6 ≤ (ledger.filter (fun l => l.tipo = "Real")).length →
      (carregar_vies_historico ledger).1 =
        some (media ((ledger.filter (fun l => l.tipo = "Real")).map
          (fun l => l.erroConsumoPct)))) ∧
    ((ledger.filter (fun l => l.tipo = "Real")).length < 6 →
      (carregar_vies_historico ledger).1 = none ∧
      (carregar_vies_historico ledger).2 mes = none) ∧
    (6 ≤ (ledger.filter (fun l => l.tipo = "Real")).length →
      3 ≤ ((ledger.filter (fun l => l.tipo = "Real")).filter (fun l => l.mes = mes)).length →
      (carregar_vies_historico ledger).2 mes =
        some (media (((ledger.filter (fun l => l.tipo = "Real")).filter
          (fun l => l.mes = mes)).map (fun l => l.erroConsumoPct)))) ∧
    (((ledger.filter (fun l => l.tipo = "Real")).filter (fun l => l.mes = mes)).length < 3 →
      vies_ajuste (carregar_vies_historico ledger).1 (carregar_vies_historico ledger).2 mes =
        (carregar_vies_historico ledger).1) := by
  refine ⟨?_, ?_, ?_, ?_⟩
  · intro h6
    unfold carregar_vies_historico
    rw [if_pos h6]
  · intro h6
    unfold carregar_vies_historico
    rw [if_neg (not_le.mpr h6)]
    exact ⟨rfl, rfl⟩
  · intro h6 h3
    unfold carregar_vies_historico
    rw [if_pos h6]
    dsimp only
    rw [if_pos h3]
  · intro h3
    unfold vies_ajuste carregar_vies_historico
    by_cases h6 : 6 ≤ (ledger.filter (fun l => l.tipo = "Real")).length
    · rw [if_pos h6]
      dsimp only
      rw [if_neg (not_le.mpr h3)]
    · rw [if_neg h6]

/-- C3 witness: 8 'Real' rows — six for Janeiro with error 10 and two
for Março with error 30 — give global bias 15, per-month bias 10
for Janeiro, and the Março month (only 2 qualifying rows, below the 3-row
minimum) falls back to the global bias. -/
theorem c3_testemunha :
    (carregar_vies_historico
        [⟨"Janeiro", "Real", 10⟩, ⟨"Janeiro", "Real", 10⟩, ⟨"Janeiro", "Real", 10⟩,
         ⟨"Janeiro", "Real", 10⟩, ⟨"Janeiro", "Real", 10⟩, ⟨"Janeiro", "Real", 10⟩,
         ⟨"Março", "Real", 30⟩, ⟨"Março", "Real", 30⟩]).1 = some 15 ∧
    (carregar_vies_historico
        [⟨"Janeiro", "Real", 10⟩, ⟨"Janeiro", "Real", 10⟩, ⟨"Janeiro", "Real", 10⟩,
         ⟨"Janeiro", "Real", 10⟩, ⟨"Janeiro", "Real", 10⟩, ⟨"Janeiro", "Real", 10⟩,
         ⟨"Março", "Real", 30⟩, ⟨"Março", "Real", 30⟩]).2 "Janeiro" = some 10 ∧
    vies_ajuste
      (carregar_vies_historico
        [⟨"Janeiro", "Real", 10⟩, ⟨"Janeiro", "Real", 10⟩, ⟨"Janeiro", "Real", 10⟩,
         ⟨"Janeiro", "Real", 10⟩, ⟨"Janeiro", "Real", 10⟩, ⟨"Janeiro", "Real", 10⟩,
         ⟨"Março", "Real", 30⟩, ⟨"Março", "Real", 30⟩]).1
      (carregar_vies_historico
        [⟨"Janeiro", "Real", 10⟩, ⟨"Janeiro", "Real", 10⟩, ⟨"Janeiro", "Real", 10⟩,
         ⟨"Janeiro", "Real", 10⟩, ⟨"Janeiro", "Real", 10⟩, ⟨"Janeiro", "Real", 10⟩,
         ⟨"Março", "Real", 30⟩, ⟨"Março", "Real", 30⟩]).2 "Março" = some 15 := by
  have h := c3_vies_historico
    [⟨"Janeiro", "Real", 10⟩, ⟨"Janeiro", "Real", 10⟩, ⟨"Janeiro", "Real", 10⟩,
     ⟨"Janeiro", "Real", 10⟩, ⟨"Janeiro", "Real", 10⟩, ⟨"Janeiro", "Real", 10⟩,
     ⟨"Março", "Real", 30⟩, ⟨"Março", "Real", 30⟩] "Janeiro"
  have h' := c3_vies_historico
    [⟨"Janeiro", "Real", 10⟩, ⟨"Janeiro", "Real", 10⟩, ⟨"Janeiro", "Real", 10⟩,
     ⟨"Janeiro", "Real", 10⟩, ⟨"Janeiro", "Real", 10⟩, ⟨"Janeiro", "Real", 10⟩,
     ⟨"Março", "Real", 30⟩, ⟨"Março", "Real", 30⟩] "Março"
  refine ⟨?_, ?_, ?_⟩
  · rw [h.1 (by decide)]
    norm_num +decide [media]
  · rw [h.2.2.1 (by decide) (by decide)]
    norm_num +decide [media]
  · rw [h'.2.2.2 (by decide), h'.1 (by decide)]
    norm_num +decide [media]

/-- The bias-application step of `estimar_consumo_ano_vigente`
(`estimativas_dados.py`, lines 166-171) and of
`estimar_consumo_ano_seguinte` (lines 216-219): start from the row's
expected consumption, and only when the row's `Tipo` is `'Projetado'`
and both an applicable bias and an expected value exist, replace it by
`round(esperado * (1 + vies / 100), 2)`. -/
def consumo_corrigido_de (tipo : String) (esperado : Option ℚ) (vies : Option ℚ) : Option ℚ :=
  if tipo = "Projetado" then
    match vies, esperado with
    | some v, some e => some (pyRound2 (e * (1 + v / 100)))
    | _, _ => esperado
  else esperado

/-- C4 — bias correction applies only to Projected rows: a Projected row
with expected consumption `e` and applicable bias `v` (per-month if
available, else global, via `vies_ajuste`) gets
`round(e * (1 + v/100), 2)`; `e = 200` with `v = −5` gives exactly 190;
Real and Corrected (`'Corrigido'`) rows, and Projected rows without an
applicable bias, keep the expected value unchanged. -/
theorem c4_aplicacao_vies (esperado : Option ℚ) (vg : Option ℚ)
    (vm : String → Option ℚ) (mes : String) (e v : ℚ) :
    (vies_ajuste vg vm mes = some v → esperado = some e →
      consumo_corrigido_de "Projetado" esperado (vies_ajuste vg vm mes) =
        some (pyRound2 (e * (1 + v / 100)))) ∧
    consumo_corrigido_de "Real" esperado (vies_ajuste vg vm mes) = esperado ∧
    consumo_corrigido_de "Corrigido" esperado (vies_ajuste vg vm mes) = esperado ∧
    (vies_ajuste vg vm mes = none →
      consumo_corrigido_de "Projetado" esperado (vies_ajuste vg vm mes) = esperado) ∧
    consumo_corrigido_de "Projetado" (some 200) (some (-5)) = some 190 := by
  refine ⟨?_, ?_, ?_, ?_, ?_⟩
  · intro hv he
    rw [hv, he]
    simp [consumo_corrigido_de]
  · simp [consumo_corrigido_de]
  · simp [consumo_corrigido_de]
  · intro hv
    rw [hv]
    cases esperado <;> simp [consumo_corrigido_de]
  · show consumo_corrigido_de "Projetado" (some 200) (some (-5)) = some 190
    have : pyRound2 (200 * (1 + (-5 : ℚ) / 100)) = 190 := by
      norm_num [pyRound2, roundHalfEven]
    simp [consumo_corrigido_de, this]

/-- C4 witness: global bias −5%, no per-month bias, expected
consumption 200 on a Projected row: the corrected value is exactly
190.0; the same inputs on a Real row stay at 200. -/
theorem c4_testemunha :
    consumo_corrigido_de "Projetado" (some 200)
      (vies_ajuste (some (-5)) (fun _ => none) "Janeiro") = some 190 ∧
    consumo_corrigido_de "Real" (some 200)
      (vies_ajuste (some (-5)) (fun _ => none) "Janeiro") = some 200 := by
  have h := c4_aplicacao_vies (some 200) (some (-5)) (fun _ => none) "Janeiro" 200 (-5)
  refine ⟨?_, h.2.1⟩
  rw [h.1 (by simp [vies_ajuste]) rfl]
  have : pyRound2 (200 * (1 + (-5 : ℚ) / 100)) = 190 := by
    norm_num [pyRound2, roundHalfEven]
  rw [this]

/-!
## Monthly band estimator (`estimativas_dados.py`, lines 50-79)

The historical DataFrame is embedded as `TabelaHistorico`: a list of
column names (for the `col not in df.columns` checks) plus rows whose
canonical numeric columns are record fields.  `Series.std(ddof=0)` is
`sqrt(varPop)`; the square root, computed in floating point by pandas,
is abstracted as a function parameter `sqrtFn`, which witnesses
instantiate with an exact square root on the variance value at hand.
-/

/-- A row of `Tabela_Historico_Tratada.xlsx` with its canonical numeric
columns: `Ano`, `Mês`, `Consumo (KWh)`, `Temp. Média (ºC)`,
`Horas Trabalhadas (h)`. -/
structure LinhaHistorico where
  ano : ℤ
  mes : String
  consumo : ℚ
  temp : ℚ
  horas : ℚ
deriving DecidableEq

/-- A historical DataFrame: the set of column names actually present
plus the rows. -/
structure TabelaHistorico where
  colunas : List String
  linhas : List LinhaHistorico
deriving DecidableEq

/-- Access of `df_mes[coluna]` for the three canonical numeric columns
(0 for other names; all uses are guarded by a membership test on
`colunas`). -/
def valorColuna (coluna : String) (l : LinhaHistorico) : ℚ :=
  if coluna = "Consumo (KWh)" then l.consumo
  else if coluna = "Horas Trabalhadas (h)" then l.horas
  else if coluna = "Temp. Média (ºC)" then l.temp
  else 0

/-- `df_mes = df[df["Mês"] == mes]` followed by
`df_mes = df_mes[df_mes["Ano"] < ano]` when `ano` is not None
(`estimativas_dados.py`, lines 58-60). -/
def linhasDoMes (df : TabelaHistorico) (mes : String) (ano : Option ℤ) : List LinhaHistorico :=
  match ano with
  | some a => (df.linhas.filter (fun l => l.mes = mes)).filter (fun l => l.ano < a)
  | none => df.linhas.filter (fun l => l.mes = mes)

/-- The `esperado` choice (`estimativas_dados.py`, lines 67-70):
`(consumo_parcial / dias_medidos) * dias_do_mes` when `consumo_parcial`
is not None and both day counts are truthy (non-None and non-zero),
else the historical mean. -/
def esperadoDe (consumo_medio : ℚ) (consumo_parcial : Option ℚ)
    (dias_medidos dias_do_mes : Option ℕ) : ℚ :=
  match consumo_parcial, dias_medidos, dias_do_mes with
  | some c, some d, some m =>
      if d ≠ 0 ∧ m ≠ 0 then (c / (d : ℚ)) * (m : ℚ) else consumo_medio
  | _, _, _ => consumo_medio

/-- The returned band `{"min": ..., "esperado": ..., "max": ...}`. -/
structure EstimativaMensal where
  minimo : Option ℚ
  esperado : Option ℚ
  maximo : Option ℚ
deriving DecidableEq

/-- `estimar_consumo_mensal` (`estimativas_dados.py`, lines 50-79):
all-null when a required column is missing or the restricted history is
empty; otherwise mean and `std(ddof=0) = sqrtFn (varPop ...)` of the
month's consumption, `esperado` via `esperadoDe`,
`min = max(0, esperado - std)`, `max = esperado + std`, every returned
field passed through `round(x, 2)` (the values are rationals, hence
never null, so the `pd.notnull` guards on lines 76-78 take their
`some` branch). -/
def estimar_consumo_mensal (sqrtFn : ℚ → ℚ) (df : TabelaHistorico) (mes : String)
    (ano : Option ℤ) (consumo_parcial : Option ℚ) (dias_medidos dias_do_mes : Option ℕ) :
    EstimativaMensal :=
  if "Ano" ∈ df.colunas ∧ "Mês" ∈ df.colunas ∧ "Consumo (KWh)" ∈ df.colunas then
    if (linhasDoMes df mes ano).isEmpty then ⟨none, none, none⟩
    else
      ⟨some (pyRound2 (max 0 (esperadoDe (media ((linhasDoMes df mes ano).map (fun l => l.consumo)))
            consumo_parcial dias_medidos dias_do_mes -
          sqrtFn (varPop ((linhasDoMes df mes ano).map (fun l => l.consumo)))))),
       some (pyRound2 (esperadoDe (media ((linhasDoMes df mes ano).map (fun l => l.consumo)))
            consumo_parcial dias_medidos dias_do_mes)),
       some (pyRound2 (esperadoDe (media ((linhasDoMes df mes ano).map (fun l => l.consumo)))
            consumo_parcial dias_medidos dias_do_mes +
          sqrtFn (varPop ((linhasDoMes df mes ano).map (fun l => l.consumo)))))⟩
  else ⟨none, none, none⟩

/-- C2 counterexample — history `[(2020, Janeiro, 100)]`, partial data
`consumedSoFar = 50`, `daysMeasured = 3`, `daysInMonth = 31`: the code
returns the two-decimal rounding `516.67`, not the claim's exact
`consumedSoFar / daysMeasured * daysInMonth = 1550/3 = 516.66...`. -/
theorem c2_contraexemplo :
    (estimar_consumo_mensal (fun _ => 0)
        ⟨["Ano", "Mês", "Consumo (KWh)"], [⟨2020, "Janeiro", 100, 0, 0⟩]⟩
        "Janeiro" (some 2021) (some 50) (some 3) (some 31)).esperado = some (51667 / 100) ∧
    (51667 / 100 : ℚ) ≠ (50 / 3) * 31 := by
  constructor
  · norm_num +decide [estimar_consumo_mensal, linhasDoMes, esperadoDe, media,
      pyRound2, roundHalfEven]
  · norm_num

/-- C2 (amended) — for a history restricted to the given month and to
years strictly before the given year: missing required columns or an
empty restricted history give an all-null band; otherwise, writing `xs`
for the restricted consumption values and `s = sqrtFn (varPop xs)` for
their population standard deviation (divisor `n`), the band is
`min = round(max(0, e − s), 2)`, `esperado = round(e, 2)`,
`max = round(e + s, 2)` with `e` the mean of `xs`, or
`e = consumedSoFar / daysMeasured * daysInMonth` when partial data with
non-zero day counts is supplied — every returned field being rounded to
two decimals. -/
theorem c2_banda_mensal (sqrtFn : ℚ → ℚ) (df : TabelaHistorico) (mes : String) (a : ℤ)
    (c : ℚ) (d m : ℕ) :
    (¬ ("Ano" ∈ df.colunas ∧ "Mês" ∈ df.colunas ∧ "Consumo (KWh)" ∈ df.colunas) →
      ∀ cp dm dmm, estimar_consumo_mensal sqrtFn df mes (some a) cp dm dmm =
        ⟨none, none, none⟩) ∧
    ((linhasDoMes df mes (some a)).isEmpty →
      ∀ cp dm dmm, estimar_consumo_mensal sqrtFn df mes (some a) cp dm dmm =
        ⟨none, none, none⟩) ∧
    (("Ano" ∈ df.colunas ∧ "Mês" ∈ df.colunas ∧ "Consumo (KWh)" ∈ df.colunas) →
      ¬ (linhasDoMes df mes (some a)).isEmpty →
      ∀ dm dmm, estimar_consumo_mensal sqrtFn df mes (some a) none dm dmm =
        ⟨some (pyRound2 (max 0 (media ((linhasDoMes df mes (some a)).map (fun l => l.consumo)) -
            sqrtFn (varPop ((linhasDoMes df mes (some a)).map (fun l => l.consumo)))))),
         some (pyRound2 (media ((linhasDoMes df mes (some a)).map (fun l => l.consumo)))),
         some (pyRound2 (media ((linhasDoMes df mes (some a)).map (fun l => l.consumo)) +
            sqrtFn (varPop ((linhasDoMes df mes (some a)).map (fun l => l.consumo)))))⟩) ∧
    (("Ano" ∈ df.colunas ∧ "Mês" ∈ df.colunas ∧ "Consumo (KWh)" ∈ df.colunas) →
      ¬ (linhasDoMes df mes (some a)).isEmpty → d ≠ 0 → m ≠ 0 →
      estimar_consumo_mensal sqrtFn df mes (some a) (some c) (some d) (some m) =
        ⟨some (pyRound2 (max 0 ((c / (d : ℚ)) * (m : ℚ) -
            sqrtFn (varPop ((linhasDoMes df mes (some a)).map (fun l => l.consumo)))))),
         some (pyRound2 ((c / (d : ℚ)) * (m : ℚ))),
         some (pyRound2 ((c / (d : ℚ)) * (m : ℚ) +
            sqrtFn (varPop ((linhasDoMes df mes (some a)).map (fun l => l.consumo)))))⟩) := by
  refine ⟨?_, ?_, ?_, ?_⟩
  · intro hcols cp dm dmm
    unfold estimar_consumo_mensal
    rw [if_neg hcols]
  · intro hvazio cp dm dmm
    unfold estimar_consumo_mensal
    by_cases hcols : "Ano" ∈ df.colunas ∧ "Mês" ∈ df.colunas ∧ "Consumo (KWh)" ∈ df.colunas
    · rw [if_pos hcols, if_pos hvazio]
    · rw [if_neg hcols]
  · intro hcols hvazio dm dmm
    unfold estimar_consumo_mensal
    rw [if_pos hcols, if_neg hvazio]
    rfl
  · intro hcols hvazio hd hm
    unfold estimar_consumo_mensal
    rw [if_pos hcols, if_neg hvazio]
    have he : esperadoDe (media ((linhasDoMes df mes (some a)).map (fun l => l.consumo)))
        (some c) (some d) (some m) = (c / (d : ℚ)) * (m : ℚ) := by
      simp only [esperadoDe]
      rw [if_pos ⟨hd, hm⟩]
    rw [he]

/-- C2 witness: a Janeiro history of 150 and 160 (years 2020 and 2021,
current year 2022) has mean 155 and population standard deviation 5
(variance 25, an exact square); partial data `(50, 10, 31)` gives the
prorated expectation `50 / 10 * 31 = 155.0` exactly, hence the band
`(150, 155, 160)`. -/
theorem c2_testemunha :
    estimar_consumo_mensal (fun q => if q = 25 then 5 else 0)
      ⟨["Ano", "Mês", "Consumo (KWh)"],
       [⟨2020, "Janeiro", 150, 0, 0⟩, ⟨2021, "Janeiro", 160, 0, 0⟩]⟩
      "Janeiro" (some 2022) (some 50) (some 10) (some 31) =
      ⟨some 150, some 155, some 160⟩ ∧
    ((fun q => if q = 25 then 5 else 0) (varPop [150, 160])) ^ 2 = varPop [150, 160] := by
  have h := (c2_banda_mensal (fun q => if q = 25 then 5 else 0)
      ⟨["Ano", "Mês", "Consumo (KWh)"],
       [⟨2020, "Janeiro", 150, 0, 0⟩, ⟨2021, "Janeiro", 160, 0, 0⟩]⟩
      "Janeiro" 2022 50 10 31).2.2.2 (by decide) (by decide) (by decide) (by decide)
  constructor
  · rw [h]
    have hx : (linhasDoMes
        ⟨["Ano", "Mês", "Consumo (KWh)"],
         [⟨2020, "Janeiro", 150, 0, 0⟩, ⟨2021, "Janeiro", 160, 0, 0⟩]⟩
        "Janeiro" (some 2022)).map (fun l => l.consumo) = [150, 160] := by decide
    rw [hx]
    have hv : varPop [150, 160] = 25 := by
      norm_num [varPop, media]
    rw [hv]
    norm_num [pyRound2, roundHalfEven]
  · have hv : varPop [150, 160] = 25 := by
      norm_num [varPop, media]
    rw [hv]
    norm_num

/-!
## Robust historical mean (`estimativas_dados.py`, lines 25-40)

`media_historica_corrigida` restricts the history to the month and to
years strictly before the current year, trims by the IQR fence computed
on the restricted (possibly outlier-containing) series, and returns the
recency-weighted mean of the retained rows.
-/

/-- The IQR fence `[Q1 − 1.5·IQR, Q3 + 1.5·IQR]` of a series
(`estimativas_dados.py`, lines 30-34). -/
def cercaIQR (vals : List ℚ) : ℚ × ℚ :=
  (quantil (1/4) vals - 3/2 * (quantil (3/4) vals - quantil (1/4) vals),
   quantil (3/4) vals + 3/2 * (quantil (3/4) vals - quantil (1/4) vals))

/-- Membership in the IQR fence, the filter of
`estimativas_dados.py`, line 35 (both bounds inclusive). -/
def dentroDaCerca (vals : List ℚ) (x : ℚ) : Prop :=
  (cercaIQR vals).1 ≤ x ∧ x ≤ (cercaIQR vals).2

instance (vals : List ℚ) (x : ℚ) : Decidable (dentroDaCerca vals x) := by
  unfold dentroDaCerca
  infer_instance

/-- The retained rows: the month/year restriction filtered by the IQR
fence of its own `coluna` series (`estimativas_dados.py`, line 35). -/
def linhasFiltradasIQR (df : TabelaHistorico) (coluna mes : String)
    (anoAtual : ℤ) : List LinhaHistorico :=
  (df.linhas.filter (fun l => l.mes = mes ∧ l.ano < anoAtual)).filter
    (fun l => dentroDaCerca
      ((df.linhas.filter (fun l' => l'.mes = mes ∧ l'.ano < anoAtual)).map (valorColuna coluna))
      (valorColuna coluna l))

/-- `np.average(df_filtrado[coluna], weights=Peso)` with
`Peso = max(1, Ano − min(Ano) + 1)` (`estimativas_dados.py`,
lines 38-39). -/
def mediaPonderadaPorAno (coluna : String) (ls : List LinhaHistorico) (minAno : ℤ) : ℚ :=
  ((ls.map (fun l => valorColuna coluna l * ((max 1 (l.ano - minAno + 1) : ℤ) : ℚ))).sum) /
    ((ls.map (fun l => ((max 1 (l.ano - minAno + 1) : ℤ) : ℚ))).sum)

/-- `media_historica_corrigida` (`estimativas_dados.py`, lines 25-40):
None when the month/year restriction is empty or the column is missing;
None when the IQR trim empties the set; otherwise the recency-weighted
mean of the retained rows, with the minimum year taken over the
retained rows. -/
def media_historica_corrigida (df : TabelaHistorico) (coluna mes : String)
    (anoAtual : ℤ) : Option ℚ :=
  if (df.linhas.filter (fun l => l.mes = mes ∧ l.ano < anoAtual)).isEmpty ∨
      coluna ∉ df.colunas then none
  else
    match linhasFiltradasIQR df coluna mes anoAtual with
    | [] => none
    | l0 :: resto =>
        some (mediaPonderadaPorAno coluna (l0 :: resto)
          ((resto.map (fun l => l.ano)).foldl min l0.ano))

/-- C6 counterexample — Janeiro history 0, 10, 20, 30, 100 (years
2018-2022, current year 2023): the fence is `[−20, 60]`, 100 is trimmed
and the weighted mean is 20.  Adding the value 10000 (year 2017), far
outside that fence, the fence is recomputed on the augmented series as
`[−92.5, 187.5]`; 100 is now retained and the result changes to 140/3. -/
theorem c6_contraexemplo :
    ¬ dentroDaCerca [0, 10, 20, 30, 100] 10000 ∧
    media_historica_corrigida
      ⟨["Ano", "Mês", "Consumo (KWh)"],
       [⟨2018, "Janeiro", 0, 0, 0⟩, ⟨2019, "Janeiro", 10, 0, 0⟩, ⟨2020, "Janeiro", 20, 0, 0⟩,
        ⟨2021, "Janeiro", 30, 0, 0⟩, ⟨2022, "Janeiro", 100, 0, 0⟩]⟩
      "Consumo (KWh)" "Janeiro" 2023 = some 20 ∧
    media_historica_corrigida
      ⟨["Ano", "Mês", "Consumo (KWh)"],
       [⟨2018, "Janeiro", 0, 0, 0⟩, ⟨2019, "Janeiro", 10, 0, 0⟩, ⟨2020, "Janeiro", 20, 0, 0⟩,
        ⟨2021, "Janeiro", 30, 0, 0⟩, ⟨2022, "Janeiro", 100, 0, 0⟩,
        ⟨2017, "Janeiro", 10000, 0, 0⟩]⟩
      "Consumo (KWh)" "Janeiro" 2023 = some (140 / 3) ∧
    (140 / 3 : ℚ) ≠ 20 := by
  have hc1 : (cercaIQR [0, 10, 20, 30, 100]).1 = -20 := by
    norm_num [cercaIQR, quantil, List.insertionSort, List.orderedInsert]
    simp
    norm_num
  have hc2 : (cercaIQR [0, 10, 20, 30, 100]).2 = 60 := by
    norm_num [cercaIQR, quantil, List.insertionSort, List.orderedInsert]
    simp
    norm_num
  have hd1 : (cercaIQR [0, 10, 20, 30, 100, 10000]).1 = -185/2 := by
    norm_num [cercaIQR, quantil, List.insertionSort, List.orderedInsert]
    simp
    norm_num
  have hd2 : (cercaIQR [0, 10, 20, 30, 100, 10000]).2 = 375/2 := by
    norm_num [cercaIQR, quantil, List.insertionSort, List.orderedInsert]
    simp
    norm_num
  refine ⟨?_, ?_, ?_, by norm_num⟩
  · intro h
    rcases h with ⟨h1, h2⟩
    rw [hc2] at h2
    norm_num at h2
  · have hres : ([⟨2018, "Janeiro", 0, 0, 0⟩, ⟨2019, "Janeiro", 10, 0, 0⟩,
        ⟨2020, "Janeiro", 20, 0, 0⟩, ⟨2021, "Janeiro", 30, 0, 0⟩,
        ⟨2022, "Janeiro", 100, 0, 0⟩] : List LinhaHistorico).filter
          (fun l => l.mes = "Janeiro" ∧ l.ano < 2023) =
        [⟨2018, "Janeiro", 0, 0, 0⟩, ⟨2019, "Janeiro", 10, 0, 0⟩,
         ⟨2020, "Janeiro", 20, 0, 0⟩, ⟨2021, "Janeiro", 30, 0, 0⟩,
         ⟨2022, "Janeiro", 100, 0, 0⟩] := by decide
    have hvals : ([⟨2018, "Janeiro", 0, 0, 0⟩, ⟨2019, "Janeiro", 10, 0, 0⟩,
        ⟨2020, "Janeiro", 20, 0, 0⟩, ⟨2021, "Janeiro", 30, 0, 0⟩,
        ⟨2022, "Janeiro", 100, 0, 0⟩] : List LinhaHistorico).map
          (valorColuna "Consumo (KWh)") = [0, 10, 20, 30, 100] := by decide
    have hfilt : linhasFiltradasIQR
        ⟨["Ano", "Mês", "Consumo (KWh)"],
         [⟨2018, "Janeiro", 0, 0, 0⟩, ⟨2019, "Janeiro", 10, 0, 0⟩, ⟨2020, "Janeiro", 20, 0, 0⟩,
          ⟨2021, "Janeiro", 30, 0, 0⟩, ⟨2022, "Janeiro", 100, 0, 0⟩]⟩
        "Consumo (KWh)" "Janeiro" 2023 =
        [⟨2018, "Janeiro", 0, 0, 0⟩, ⟨2019, "Janeiro", 10, 0, 0⟩,
         ⟨2020, "Janeiro", 20, 0, 0⟩, ⟨2021, "Janeiro", 30, 0, 0⟩] := by
      unfold linhasFiltradasIQR
      rw [hres, hvals]
      simp only [dentroDaCerca, hc1, hc2]
      norm_num [List.filter, valorColuna]
    unfold media_historica_corrigida
    rw [if_neg (by decide), hfilt]
    norm_num [mediaPonderadaPorAno, valorColuna]
  · have hres : ([⟨2018, "Janeiro", 0, 0, 0⟩, ⟨2019, "Janeiro", 10, 0, 0⟩,
        ⟨2020, "Janeiro", 20, 0, 0⟩, ⟨2021, "Janeiro", 30, 0, 0⟩,
        ⟨2022, "Janeiro", 100, 0, 0⟩, ⟨2017, "Janeiro", 10000, 0, 0⟩] : List LinhaHistorico).filter
          (fun l => l.mes = "Janeiro" ∧ l.ano < 2023) =
        [⟨2018, "Janeiro", 0, 0, 0⟩, ⟨2019, "Janeiro", 10, 0, 0⟩,
         ⟨2020, "Janeiro", 20, 0, 0⟩, ⟨2021, "Janeiro", 30, 0, 0⟩,
         ⟨2022, "Janeiro", 100, 0, 0⟩, ⟨2017, "Janeiro", 10000, 0, 0⟩] := by decide
    have hvals : ([⟨2018, "Janeiro", 0, 0, 0⟩, ⟨2019, "Janeiro", 10, 0, 0⟩,
        ⟨2020, "Janeiro", 20, 0, 0⟩, ⟨2021, "Janeiro", 30, 0, 0⟩,
        ⟨2022, "Janeiro", 100, 0, 0⟩, ⟨2017, "Janeiro", 10000, 0, 0⟩] :
          List LinhaHistorico).map (valorColuna "Consumo (KWh)") =
        [0, 10, 20, 30, 100, 10000] := by decide
    have hfilt : linhasFiltradasIQR
        ⟨["Ano", "Mês", "Consumo (KWh)"],
         [⟨2018, "Janeiro", 0, 0, 0⟩, ⟨2019, "Janeiro", 10, 0, 0⟩, ⟨2020, "Janeiro", 20, 0, 0⟩,
          ⟨2021, "Janeiro", 30, 0, 0⟩, ⟨2022, "Janeiro", 100, 0, 0⟩,
          ⟨2017, "Janeiro", 10000, 0, 0⟩]⟩
        "Consumo (KWh)" "Janeiro" 2023 =
        [⟨2018, "Janeiro", 0, 0, 0⟩, ⟨2019, "Janeiro", 10, 0, 0⟩,
         ⟨2020, "Janeiro", 20, 0, 0⟩, ⟨2021, "Janeiro", 30, 0, 0⟩,
         ⟨2022, "Janeiro", 100, 0, 0⟩] := by
      unfold linhasFiltradasIQR
      rw [hres, hvals]
      simp only [dentroDaCerca, hd1, hd2]
      norm_num [List.filter, valorColuna]
    unfold media_historica_corrigida
    rw [if_neg (by decide), hfilt]
    norm_num [mediaPonderadaPorAno, valorColuna]

-- For a one-element series every linear-interpolation quantile is the
-- element itself, so the element is inside its own IQR fence.

lemma quantil_singleton (q v : ℚ) : quantil q [v] = v := by
  unfold quantil
  simp [List.insertionSort, List.orderedInsert]

lemma dentro_singleton (v : ℚ) : dentroDaCerca [v] v := by
  unfold dentroDaCerca cercaIQR
  rw [quantil_singleton, quantil_singleton]
  exact ⟨by linarith, by linarith⟩

/-- C6 (amended) — `media_historica_corrigida` recomputes the IQR fence
on the augmented series, so adding one value can change which other
values are retained and hence the result (see the counterexample).
What holds: when the added row (same month, year before the current
year) falls outside the fence of the augmented restricted series, it is
itself never retained, and if additionally every original restricted
row's fence membership is the same under the augmented fence as under
the original fence, the result is unchanged. -/
theorem c6_media_robusta_estavel (df : TabelaHistorico) (coluna mes : String)
    (anoAtual : ℤ) (r : LinhaHistorico) (hmes : r.mes = mes) (hano : r.ano < anoAtual)
    (hout : ¬ dentroDaCerca
      (((df.linhas ++ [r]).filter (fun l => l.mes = mes ∧ l.ano < anoAtual)).map
        (valorColuna coluna)) (valorColuna coluna r))
    (hmem : ∀ l ∈ df.linhas.filter (fun l => l.mes = mes ∧ l.ano < anoAtual),
      (dentroDaCerca
        (((df.linhas ++ [r]).filter (fun l' => l'.mes = mes ∧ l'.ano < anoAtual)).map
          (valorColuna coluna)) (valorColuna coluna l) ↔
      dentroDaCerca
        ((df.linhas.filter (fun l' => l'.mes = mes ∧ l'.ano < anoAtual)).map
          (valorColuna coluna)) (valorColuna coluna l))) :
    media_historica_corrigida ⟨df.colunas, df.linhas ++ [r]⟩ coluna mes anoAtual =
      media_historica_corrigida df coluna mes anoAtual := by
  have hres : (df.linhas ++ [r]).filter (fun l => l.mes = mes ∧ l.ano < anoAtual) =
      df.linhas.filter (fun l => l.mes = mes ∧ l.ano < anoAtual) ++ [r] := by
    rw [List.filter_append]
    congr 1
    simp [List.filter, hmes, hano]
  rw [hres] at hout hmem
  by_cases hemp : df.linhas.filter (fun l => l.mes = mes ∧ l.ano < anoAtual) = []
  · rw [hemp] at hout
    simp only [List.nil_append] at hout
    exact absurd (by simpa using dentro_singleton (valorColuna coluna r)) hout
  · by_cases hcol : coluna ∈ df.colunas
    · have hcond : ¬ ((df.linhas.filter (fun l => l.mes = mes ∧ l.ano < anoAtual)).isEmpty ∨
          coluna ∉ df.colunas) := by
        rw [List.isEmpty_iff]
        push_neg
        exact ⟨hemp, hcol⟩
      have hcond' : ¬ (((df.linhas ++ [r]).filter
            (fun l => l.mes = mes ∧ l.ano < anoAtual)).isEmpty ∨ coluna ∉ df.colunas) := by
        rw [hres, List.isEmpty_iff]
        push_neg
        exact ⟨by simp, hcol⟩
      have hfilteq : linhasFiltradasIQR ⟨df.colunas, df.linhas ++ [r]⟩ coluna mes anoAtual =
          linhasFiltradasIQR df coluna mes anoAtual := by
        unfold linhasFiltradasIQR
        dsimp only
        rw [hres, List.filter_append]
        have hr0 : List.filter (fun l => dentroDaCerca
            (((df.linhas.filter (fun l' => l'.mes = mes ∧ l'.ano < anoAtual)) ++ [r]).map
              (valorColuna coluna)) (valorColuna coluna l)) [r] = [] := by
          simp only [List.filter_cons, List.filter_nil, decide_eq_true_eq]
          rw [if_neg hout]
        rw [hr0, List.append_nil]
        exact List.filter_congr (fun l hl => decide_eq_decide.mpr (hmem l hl))
      unfold media_historica_corrigida
      dsimp only
      rw [if_neg hcond', if_neg hcond, hfilteq]
    · unfold media_historica_corrigida
      dsimp only
      rw [if_pos (Or.inr hcol), if_pos (Or.inr hcol)]

/-- C6 witness: Janeiro history 0, 10, 20, 30 (years 2018-2021, current
year 2022) has fence `[−15, 45]`; appending the value 1000 (year 2017)
gives the augmented fence `[−20, 60]`, which excludes 1000 and keeps
every original value's membership unchanged, so the robust mean is
unchanged. -/
theorem c6_testemunha :
    media_historica_corrigida
      ⟨["Ano", "Mês", "Consumo (KWh)"],
       [⟨2018, "Janeiro", 0, 0, 0⟩, ⟨2019, "Janeiro", 10, 0, 0⟩, ⟨2020, "Janeiro", 20, 0, 0⟩,
        ⟨2021, "Janeiro", 30, 0, 0⟩] ++ [⟨2017, "Janeiro", 1000, 0, 0⟩]⟩
      "Consumo (KWh)" "Janeiro" 2022 =
    media_historica_corrigida
      ⟨["Ano", "Mês", "Consumo (KWh)"],
       [⟨2018, "Janeiro", 0, 0, 0⟩, ⟨2019, "Janeiro", 10, 0, 0⟩, ⟨2020, "Janeiro", 20, 0, 0⟩,
        ⟨2021, "Janeiro", 30, 0, 0⟩]⟩
      "Consumo (KWh)" "Janeiro" 2022 := by
  have ha1 : (cercaIQR [0, 10, 20, 30, 1000]).1 = -20 := by
    norm_num [cercaIQR, quantil, List.insertionSort, List.orderedInsert]
    simp
    norm_num
  have ha2 : (cercaIQR [0, 10, 20, 30, 1000]).2 = 60 := by
    norm_num [cercaIQR, quantil, List.insertionSort, List.orderedInsert]
    simp
    norm_num
  have hb1 : (cercaIQR [0, 10, 20, 30]).1 = -15 := by
    norm_num [cercaIQR, quantil, List.insertionSort, List.orderedInsert]
    simp
    norm_num
  have hb2 : (cercaIQR [0, 10, 20, 30]).2 = 45 := by
    norm_num [cercaIQR, quantil, List.insertionSort, List.orderedInsert]
    simp
    norm_num
  have hm1 : ((([⟨2018, "Janeiro", 0, 0, 0⟩, ⟨2019, "Janeiro", 10, 0, 0⟩,
      ⟨2020, "Janeiro", 20, 0, 0⟩, ⟨2021, "Janeiro", 30, 0, 0⟩] :
        List LinhaHistorico) ++ [(⟨2017, "Janeiro", 1000, 0, 0⟩ : LinhaHistorico)]).filter
          (fun l => l.mes = "Janeiro" ∧ l.ano < 2022)).map
        (valorColuna "Consumo (KWh)") = ([0, 10, 20, 30, 1000] : List ℚ) := by decide
  have hm2 : (([⟨2018, "Janeiro", 0, 0, 0⟩, ⟨2019, "Janeiro", 10, 0, 0⟩,
      ⟨2020, "Janeiro", 20, 0, 0⟩, ⟨2021, "Janeiro", 30, 0, 0⟩] :
        List LinhaHistorico).filter
          (fun l => l.mes = "Janeiro" ∧ l.ano < 2022)).map
        (valorColuna "Consumo (KWh)") = ([0, 10, 20, 30] : List ℚ) := by decide
  have hv : valorColuna "Consumo (KWh)" (⟨2017, "Janeiro", 1000, 0, 0⟩ : LinhaHistorico) =
      1000 := by decide
  refine c6_media_robusta_estavel
    ⟨["Ano", "Mês", "Consumo (KWh)"],
     [⟨2018, "Janeiro", 0, 0, 0⟩, ⟨2019, "Janeiro", 10, 0, 0⟩, ⟨2020, "Janeiro", 20, 0, 0⟩,
      ⟨2021, "Janeiro", 30, 0, 0⟩]⟩
    "Consumo (KWh)" "Janeiro" 2022 ⟨2017, "Janeiro", 1000, 0, 0⟩ rfl (by decide) ?_ ?_
  · rw [hm1, hv]
    intro hcontra
    rw [dentroDaCerca, ha2] at hcontra
    rcases hcontra with ⟨h1, h2⟩
    norm_num at h2
  · intro l hl
    have hfl : ([⟨2018, "Janeiro", 0, 0, 0⟩, ⟨2019, "Janeiro", 10, 0, 0⟩,
        ⟨2020, "Janeiro", 20, 0, 0⟩, ⟨2021, "Janeiro", 30, 0, 0⟩] :
          List LinhaHistorico).filter (fun l => l.mes = "Janeiro" ∧ l.ano < 2022) =
        [⟨2018, "Janeiro", 0, 0, 0⟩, ⟨2019, "Janeiro", 10, 0, 0⟩,
         ⟨2020, "Janeiro", 20, 0, 0⟩, ⟨2021, "Janeiro", 30, 0, 0⟩] := by decide
    rw [hfl] at hl
    rw [hm1, hm2]
    fin_cases hl <;>
      simp only [dentroDaCerca, ha1, ha2, hb1, hb2, valorColuna] <;>
      norm_num

/-!
## Schema normalizer — flattened exports (`tratamento_dados.py`)

Raw cells are `Option String` (`none` is a NaN cell); `pd.to_datetime`
with `dayfirst=True` and `pd.to_numeric` are abstracted as parameters
`parseDT : String → Option ℤ` (a parsed instant on a linear time axis,
`none` on failure = `NaT`) and `parseNum : String → Option ℚ` (`none` on
failure = `NaN`).
-/

/-- Character-level worker for `str.split()`: cut at whitespace runs,
accumulating the current token reversed. -/
def quebrarEspacosAux : List Char → List Char → List (List Char)
  | [], acc => if acc.isEmpty then [] else [acc.reverse]
  | c :: resto, acc =>
      if c.isWhitespace then
        if acc.isEmpty then quebrarEspacosAux resto []
        else acc.reverse :: quebrarEspacosAux resto []
      else quebrarEspacosAux resto (c :: acc)

/-- `str.split()` with no separator: split on whitespace runs, dropping
empty pieces.  (Implemented over the character list so that concrete
inputs evaluate inside the kernel.) -/
def separarTokens (ln : String) : List String :=
  (quebrarEspacosAux ln.data []).map String.mk

/-- `str.strip()` over the character list. -/
def aparar (s : String) : String :=
  String.mk (((s.data.dropWhile Char.isWhitespace).reverse.dropWhile Char.isWhitespace).reverse)

/-- `str.lower()` over the character list (the inputs are headers and
data tokens). -/
def minusculas (s : String) : String := String.mk (s.data.map Char.toLower)

def listaComecaCom : List Char → List Char → Bool
  | _, [] => true
  | [], _ :: _ => false
  | c :: s, p :: ps => c = p && listaComecaCom s ps

def listaContem : List Char → List Char → Bool
  | [], p => p.isEmpty
  | c :: resto, p => listaComecaCom (c :: resto) p || listaContem resto p

/-- Substring test (`Series.str.contains` on a fixed literal pattern). -/
def contem (s pat : String) : Bool := listaContem s.data pat.data

/-- `COLUNAS_CHILLER_COMPLETO` (`tratamento_dados.py`, lines 249-255):
the canonical positional fields of a well-tokenized chiller CSV. -/
def COLUNAS_CHILLER_COMPLETO : List String :=
  ["Data", "Hora", "Arref_m3_h", "Arref_bar", "Arref_C", "Arref_Rotacao_B1",
   "Arref_Status_B1", "Arref_Status_B2", "Arref_Status_B3",
   "Alim_m3_h", "Alim_bar", "Alim_C", "Retorno_bar", "Retorno_C",
   "Status_CH1", "Status_CH2", "Status_CH3", "Status_BAG1", "Status_BAG2", "Status_BAG3",
   "Status_BAG4", "Pot_Frig_KW", "Pot_Elet_KW", "COP"]

/-- One row of `tokenizar_linhas` (`tratamento_dados.py`, lines 271-294):
non-null cells converted to text, empties dropped, joined with single
spaces and stripped. -/
def juntarCelulas (linha : List (Option String)) : String :=
  aparar (String.intercalate " " ((linha.map (fun c => c.getD "")).filter (fun x => x ≠ "")))

/-- The flattened-header mask of `tokenizar_linhas`: the lowercased
joined row mentions `data`, `hora` and `pot`. -/
def eCabecalhoAchatado (s : String) : Bool :=
  contem (minusculas s) "data" && contem (minusculas s) "hora" && contem (minusculas s) "pot"

/-- `tokenizar_linhas` (`tratamento_dados.py`, lines 271-294): join the
non-null cells of every row and drop header-like rows.  (The
empty-DataFrame early return coincides with the general path on `[]`.) -/
def tokenizar_linhas (cels : List (List (Option String))) : List String :=
  (cels.map juntarCelulas).filter (fun s => ! eCabecalhoAchatado s)

/-- `.str.replace(",", ".")` before `pd.to_numeric`. -/
def trocarVirgulaPorPonto (s : String) : String :=
  String.mk (s.data.map (fun c => if c = ',' then '.' else c))

/-- A row of the wide frame built by `separar_colunas_tokenizadas`: the
24 positional text fields plus the derived `dt`, `Pot_Frig_KW`,
`Pot_Elet_KW` and `COP` columns. -/
structure LinhaLarga where
  colunas : List String
  dt : Option ℤ
  potFrig : Option ℚ
  potElet : Option ℚ
  cop : Option ℚ
deriving DecidableEq

/-- Build one wide row from a token list with at least 24 tokens
(`tratamento_dados.py`, lines 306-313): keep the first 24 tokens,
derive `dt` from `Data + " " + Hora` (tokens 0 and 1) and parse the
last three fields (tokens 21-23) numerically after replacing the comma
decimal separator. -/
def montarLinhaLarga (parseDT : String → Option ℤ) (parseNum : String → Option ℚ)
    (t : List String) : LinhaLarga :=
  { colunas := t.take COLUNAS_CHILLER_COMPLETO.length
    dt := parseDT ((t.take COLUNAS_CHILLER_COMPLETO.length).getD 0 "" ++ " " ++
      (t.take COLUNAS_CHILLER_COMPLETO.length).getD 1 "")
    potFrig := parseNum (trocarVirgulaPorPonto
      ((t.take COLUNAS_CHILLER_COMPLETO.length).getD 21 ""))
    potElet := parseNum (trocarVirgulaPorPonto
      ((t.take COLUNAS_CHILLER_COMPLETO.length).getD 22 ""))
    cop := parseNum (trocarVirgulaPorPonto
      ((t.take COLUNAS_CHILLER_COMPLETO.length).getD 23 "")) }

/-- `separar_colunas_tokenizadas` (`tratamento_dados.py`,
lines 296-313): tokenize the joined rows, keep only rows with at least
`len(COLUNAS_CHILLER_COMPLETO)` tokens, and build the wide rows.  (The
two early returns on empty intermediate frames coincide with the
general path.) -/
def separar_colunas_tokenizadas (parseDT : String → Option ℤ)
    (parseNum : String → Option ℚ) (cels : List (List (Option String))) : List LinhaLarga :=
  (((tokenizar_linhas cels).map separarTokens).filter
    (fun t => COLUNAS_CHILLER_COMPLETO.length ≤ t.length)).map
      (montarLinhaLarga parseDT parseNum)

/-- C9 counterexample — a flattened row of exactly 23 whitespace-
separated tokens is discarded: the canonical positional field count in
the code is 24 (`COLUNAS_CHILLER_COMPLETO` has 24 entries, ending in
cooling power, electric power, COP), not the claimed 23. -/
theorem c9_contraexemplo :
    (separarTokens "a a a a a a a a a a a a a a a a a a a a a a a").length = 23 ∧
    COLUNAS_CHILLER_COMPLETO.length = 24 ∧
    separar_colunas_tokenizadas (fun _ => some 0) (fun _ => none)
      [[some "a a a a a a a a a a a a a a a a a a a a a a a"]] = [] := by
  refine ⟨by decide, by decide, by decide⟩

/-- C9 (amended) — in the flattened parsing path each row's non-null
cells are joined and split on whitespace; rows with fewer tokens than
the fixed canonical field count — which is 24, not 23 — are discarded
(one output row per retained token row, built from its first 24
tokens); the timestamp is derived from the first two tokens; and the
last three fields (positions 21-23: cooling power, electric power, COP)
are parsed numerically with comma decimal separators accepted. -/
theorem c9_caminho_achatado (parseDT : String → Option ℤ) (parseNum : String → Option ℚ)
    (cels : List (List (Option String))) :
    COLUNAS_CHILLER_COMPLETO.length = 24 ∧
    (separar_colunas_tokenizadas parseDT parseNum cels).length =
      (((tokenizar_linhas cels).map separarTokens).filter (fun t => 24 ≤ t.length)).length ∧
    (∀ row ∈ separar_colunas_tokenizadas parseDT parseNum cels,
      (∃ t ∈ (tokenizar_linhas cels).map separarTokens,
        24 ≤ t.length ∧ row.colunas = t.take 24) ∧
      row.dt = parseDT (row.colunas.getD 0 "" ++ " " ++ row.colunas.getD 1 "") ∧
      row.potFrig = parseNum (trocarVirgulaPorPonto (row.colunas.getD 21 "")) ∧
      row.potElet = parseNum (trocarVirgulaPorPonto (row.colunas.getD 22 "")) ∧
      row.cop = parseNum (trocarVirgulaPorPonto (row.colunas.getD 23 ""))) ∧
    (∀ t ∈ (tokenizar_linhas cels).map separarTokens, 24 ≤ t.length →
      montarLinhaLarga parseDT parseNum t ∈ separar_colunas_tokenizadas parseDT parseNum cels) := by
  have hlen : COLUNAS_CHILLER_COMPLETO.length = 24 := by decide
  refine ⟨hlen, ?_, ?_, ?_⟩
  · unfold separar_colunas_tokenizadas
    rw [List.length_map, hlen]
  · intro row hrow
    unfold separar_colunas_tokenizadas at hrow
    rcases List.mem_map.mp hrow with ⟨t, ht, hmk⟩
    rcases List.mem_filter.mp ht with ⟨htmem, htlen⟩
    have htlen' : 24 ≤ t.length := by
      rw [← hlen]
      exact of_decide_eq_true htlen
    refine ⟨⟨t, htmem, htlen', ?_⟩, ?_, ?_, ?_, ?_⟩
    · rw [← hmk, ← hlen]
      rfl
    · rw [← hmk]
      rfl
    · rw [← hmk]
      rfl
    · rw [← hmk]
      rfl
    · rw [← hmk]
      rfl
  · intro t htmem htlen
    unfold separar_colunas_tokenizadas
    refine List.mem_map.mpr ⟨t, List.mem_filter.mpr ⟨htmem, ?_⟩, rfl⟩
    rw [hlen]
    exact decide_eq_true htlen

/-- C9 witness: a single flattened row of 24 tokens whose first two are
a date and a time and whose last three are `330,9`, `76,3`, `4,33`
(comma decimals) produces one wide row: the timestamp parser receives
`"01/07/2024 13:05"` and the numeric parser receives the comma-to-dot
versions of the last three tokens. -/
theorem c9_testemunha :
    separar_colunas_tokenizadas (fun s => if s = "01/07/2024 13:05" then some 86645 else none)
      (fun s => if s = "330.9" then some 330 else
        if s = "76.3" then some 76 else if s = "4.33" then some 4 else none)
      [[some "01/07/2024 13:05 0 0 0 0 0 0 0 0 0 0 0 0 0 0 0 0 0 0 0 330,9 76,3 4,33"]] =
      [{ colunas := ["01/07/2024", "13:05", "0", "0", "0", "0", "0", "0", "0", "0", "0", "0",
          "0", "0", "0", "0", "0", "0", "0", "0", "0", "330,9", "76,3", "4,33"],
         dt := some 86645, potFrig := some 330, potElet := some 76,
         cop := some 4 }] := by
  have h := c9_caminho_achatado
    (fun s => if s = "01/07/2024 13:05" then some 86645 else none)
    (fun s => if s = "330.9" then some 330 else
      if s = "76.3" then some 76 else if s = "4.33" then some 4 else none)
    [[some "01/07/2024 13:05 0 0 0 0 0 0 0 0 0 0 0 0 0 0 0 0 0 0 0 330,9 76,3 4,33"]]
  have hmem := h.2.2.2
    (separarTokens "01/07/2024 13:05 0 0 0 0 0 0 0 0 0 0 0 0 0 0 0 0 0 0 0 330,9 76,3 4,33")
    (by decide) (by decide)
  have hlen := h.2.1
  decide

/-- A normalized chiller sample row `[dt, Pot_Elet_KW, Pot_Frig_KW,
COP]`; `dt` stays `Option` until the `dropna(subset=["dt"])` step. -/
structure AmostraChiller where
  dt : Option ℤ
  potElet : Option ℚ
  potFrig : Option ℚ
  cop : Option ℚ
deriving DecidableEq

/-- The `sort_values("dt")` order (all rows reaching the sort have a
parsed `dt`, since `dropna` runs first). -/
def dtLe (a b : AmostraChiller) : Prop := a.dt.getD 0 ≤ b.dt.getD 0

instance : DecidableRel dtLe := fun a b => by
  unfold dtLe
  infer_instance

instance : IsTotal AmostraChiller dtLe := ⟨fun a b => le_total _ _⟩

instance : IsTrans AmostraChiller dtLe := ⟨fun _ _ _ => le_trans⟩

/-- `parsed.shape[1]` of `pd.DataFrame(rows)`: the maximum row width
(shorter rows are padded with `None`). -/
def larguraMaxima (rows : List (List String)) : ℕ := (rows.map List.length).foldr max 0

/-- One parsed row of `converter_tokens_para_amostras_chiller`
(`tratamento_dados.py`, lines 74-77): `dt` from columns 0 and 1 joined
by a space; cooling power, electric power, COP from columns `n−3`,
`n−2`, `n−1` of the padded frame (a position beyond the row's own
length is a `None` pad, hence `NaN` after `to_numeric`). -/
def linhaParaAmostra (parseDT : String → Option ℤ) (parseNum : String → Option ℚ)
    (n : ℕ) (parts : List String) : AmostraChiller :=
  { dt := parseDT (parts.getD 0 "" ++ " " ++ parts.getD 1 "")
    potElet := (parts[n - 2]?).bind parseNum
    potFrig := (parts[n - 3]?).bind parseNum
    cop := (parts[n - 1]?).bind parseNum }

/-- `dropna(subset=["dt"]).sort_values("dt")`
(`tratamento_dados.py`, line 78; also line 214 of the tabular path). -/
def ordenarPorDt (linhas : List AmostraChiller) : List AmostraChiller :=
  List.insertionSort dtLe (linhas.filter (fun a => a.dt.isSome))

/-- `converter_tokens_para_amostras_chiller` (`tratamento_dados.py`,
lines 59-79): split each line on whitespace, keep rows with at least 6
tokens, build the padded frame of width `n` (the maximum width), parse
the fields, drop rows with unparsed timestamps and sort by timestamp. -/
def converter_tokens_para_amostras_chiller (parseDT : String → Option ℤ)
    (parseNum : String → Option ℚ) (s : List String) : List AmostraChiller :=
  if ((s.map separarTokens).filter (fun p => 6 ≤ p.length)).isEmpty then []
  else
    ordenarPorDt (((s.map separarTokens).filter (fun p => 6 ≤ p.length)).map
      (linhaParaAmostra parseDT parseNum
        (larguraMaxima ((s.map separarTokens).filter (fun p => 6 ≤ p.length)))))

-- Supporting lemmas for the normalization invariants.

lemma mem_ordenarPorDt {l : List AmostraChiller} {a : AmostraChiller} :
    a ∈ ordenarPorDt l ↔ a ∈ l.filter (fun a => a.dt.isSome) := by
  unfold ordenarPorDt
  exact List.mem_insertionSort dtLe

lemma isSome_of_mem_ordenarPorDt {l : List AmostraChiller} {a : AmostraChiller}
    (h : a ∈ ordenarPorDt l) : a.dt.isSome := by
  exact (List.mem_filter.mp (mem_ordenarPorDt.mp h)).2

lemma sorted_ordenarPorDt (l : List AmostraChiller) : List.Sorted dtLe (ordenarPorDt l) :=
  List.sorted_insertionSort dtLe _

lemma filterMap_dt_of_isSome :
    ∀ l : List AmostraChiller, (∀ a ∈ l, a.dt.isSome) →
      l.filterMap (fun a => a.dt) = l.map (fun a => a.dt.getD 0) := by
  intro l
  induction l with
  | nil => intro _; rfl
  | cons a l ih =>
    intro h
    have ha := h a (List.mem_cons_self a l)
    rcases Option.isSome_iff_exists.mp ha with ⟨x, hx⟩
    rw [List.filterMap_cons, List.map_cons, hx]
    simp only [Option.getD_some]
    rw [ih (fun b hb => h b (List.mem_cons_of_mem a hb))]

lemma foldr_max_perm {l1 l2 : List ℕ} (h : l1.Perm l2) (b : ℕ) :
    l1.foldr max b = l2.foldr max b := by
  induction h with
  | nil => rfl
  | cons x _ ih => simp only [List.foldr_cons, ih]
  | swap x y l => simp only [List.foldr_cons]; rw [max_left_comm]
  | trans _ _ ih1 ih2 => rw [ih1, ih2]

lemma pairwise_lt_of_le_nodup {l : List ℤ}
    (h1 : List.Pairwise (· ≤ ·) l) (h2 : l.Nodup) : List.Pairwise (· < ·) l := by
  induction l with
  | nil => exact List.Pairwise.nil
  | cons a l ih =>
    rcases List.pairwise_cons.mp h1 with ⟨ha, h1'⟩
    rcases List.pairwise_cons.mp h2 with ⟨hb, h2'⟩
    exact List.pairwise_cons.mpr
      ⟨fun b hbmem => lt_of_le_of_ne (ha b hbmem) (hb b hbmem), ih h1' h2'⟩

lemma converter_tokens_isSome (parseDT : String → Option ℤ)
    (parseNum : String → Option ℚ) (s : List String) :
    ∀ a ∈ converter_tokens_para_amostras_chiller parseDT parseNum s, a.dt.isSome := by
  intro a ha
  unfold converter_tokens_para_amostras_chiller at ha
  split at ha
  · exact absurd ha (List.not_mem_nil a)
  · exact isSome_of_mem_ordenarPorDt ha

lemma converter_tokens_sorted_le (parseDT : String → Option ℤ)
    (parseNum : String → Option ℚ) (s : List String) :
    List.Sorted (· ≤ ·)
      ((converter_tokens_para_amostras_chiller parseDT parseNum s).filterMap (fun a => a.dt)) := by
  rw [filterMap_dt_of_isSome _ (converter_tokens_isSome parseDT parseNum s)]
  unfold converter_tokens_para_amostras_chiller
  split
  · exact List.sorted_nil
  · exact List.pairwise_map.mpr (sorted_ordenarPorDt _)

lemma converter_tokens_dts_perm (parseDT : String → Option ℤ)
    (parseNum : String → Option ℚ) {s1 s2 : List String} (hp : s1.Perm s2) :
    (converter_tokens_para_amostras_chiller parseDT parseNum s1).filterMap (fun a => a.dt) =
    (converter_tokens_para_amostras_chiller parseDT parseNum s2).filterMap (fun a => a.dt) := by
  have hkept : ((s1.map separarTokens).filter (fun p => 6 ≤ p.length)).Perm
      ((s2.map separarTokens).filter (fun p => 6 ≤ p.length)) :=
    (hp.map separarTokens).filter _
  have hn : larguraMaxima ((s1.map separarTokens).filter (fun p => 6 ≤ p.length)) =
      larguraMaxima ((s2.map separarTokens).filter (fun p => 6 ≤ p.length)) :=
    foldr_max_perm (hkept.map List.length) 0
  have hsome1 := converter_tokens_isSome parseDT parseNum s1
  have hsome2 := converter_tokens_isSome parseDT parseNum s2
  rw [filterMap_dt_of_isSome _ hsome1, filterMap_dt_of_isSome _ hsome2]
  unfold converter_tokens_para_amostras_chiller
  by_cases hemp : ((s1.map separarTokens).filter (fun p => 6 ≤ p.length)).isEmpty
  · have hemp2 : ((s2.map separarTokens).filter (fun p => 6 ≤ p.length)).isEmpty := by
      rw [List.isEmpty_iff] at hemp ⊢
      rw [hemp] at hkept
      exact List.Perm.eq_nil hkept.symm
    rw [if_pos hemp, if_pos hemp2]
  · have hemp2 : ¬ ((s2.map separarTokens).filter (fun p => 6 ≤ p.length)).isEmpty := by
      intro h2
      apply hemp
      rw [List.isEmpty_iff] at h2 ⊢
      rw [h2] at hkept
      exact List.Perm.eq_nil hkept
    rw [if_neg hemp, if_neg hemp2, hn]
    have ho : (ordenarPorDt (((s1.map separarTokens).filter (fun p => 6 ≤ p.length)).map
        (linhaParaAmostra parseDT parseNum
          (larguraMaxima ((s2.map separarTokens).filter (fun p => 6 ≤ p.length)))))).Perm
        (ordenarPorDt (((s2.map separarTokens).filter (fun p => 6 ≤ p.length)).map
          (linhaParaAmostra parseDT parseNum
            (larguraMaxima ((s2.map separarTokens).filter (fun p => 6 ≤ p.length)))))) := by
      unfold ordenarPorDt
      exact ((List.perm_insertionSort dtLe _).trans
        (((hkept.map _).filter _))).trans (List.perm_insertionSort dtLe _).symm
    exact List.eq_of_perm_of_sorted (ho.map (fun a => a.dt.getD 0))
      (List.pairwise_map.mpr (sorted_ordenarPorDt _))
      (List.pairwise_map.mpr (sorted_ordenarPorDt _))

/-- The final normalization step of
`converter_tabela_para_amostras_chiller` (`tratamento_dados.py`,
lines 213-214): the rows assembled from the resolved `dt`,
`Pot_Elet_KW`, `Pot_Frig_KW` and `COP` columns (the column resolution
of lines 86-211 is upstream of this step and is abstracted as the input
row list) go through the same `dropna(subset=["dt"]).sort_values("dt")`
as the flattened path. -/
def converter_tabela_para_amostras_chiller_saida (linhas : List AmostraChiller) :
    List AmostraChiller :=
  ordenarPorDt linhas

lemma ordenarPorDt_sorted_le (l : List AmostraChiller) :
    List.Sorted (· ≤ ·) ((ordenarPorDt l).filterMap (fun a => a.dt)) := by
  rw [filterMap_dt_of_isSome _ (fun a ha => isSome_of_mem_ordenarPorDt ha)]
  exact List.pairwise_map.mpr (sorted_ordenarPorDt l)

lemma ordenarPorDt_dts_perm {l1 l2 : List AmostraChiller} (h : l1.Perm l2) :
    (ordenarPorDt l1).filterMap (fun a => a.dt) =
      (ordenarPorDt l2).filterMap (fun a => a.dt) := by
  rw [filterMap_dt_of_isSome _ (fun a ha => isSome_of_mem_ordenarPorDt ha),
    filterMap_dt_of_isSome _ (fun a ha => isSome_of_mem_ordenarPorDt ha)]
  have ho : (ordenarPorDt l1).Perm (ordenarPorDt l2) := by
    unfold ordenarPorDt
    exact ((List.perm_insertionSort dtLe _).trans (h.filter _)).trans
      (List.perm_insertionSort dtLe _).symm
  exact List.eq_of_perm_of_sorted (ho.map (fun a => a.dt.getD 0))
    (List.pairwise_map.mpr (sorted_ordenarPorDt _))
    (List.pairwise_map.mpr (sorted_ordenarPorDt _))

/-- C1 (amended) — for every tabular or flattened export, the
normalized sample output has no null timestamp (rows whose timestamp
fails to parse are dropped), its timestamp sequence is sorted in
ascending (non-decreasing) order and is the same for every ordering of
the input rows; it is strictly ascending and unique exactly when it
contains no duplicates, which the code does not guarantee (no
deduplication is performed — see the counterexample).  The flattened
path is `converter_tokens_para_amostras_chiller`; the tabular path ends
in the identical `dropna + sort_values` step, covered by the conjunct
on `converter_tabela_para_amostras_chiller_saida` over the rows
assembled from the resolved columns. -/
theorem c1_normalizacao_timestamps (parseDT : String → Option ℤ)
    (parseNum : String → Option ℚ) (s : List String) :
    (∀ a ∈ converter_tokens_para_amostras_chiller parseDT parseNum s, a.dt.isSome) ∧
    List.Sorted (· ≤ ·)
      ((converter_tokens_para_amostras_chiller parseDT parseNum s).filterMap (fun a => a.dt)) ∧
    (∀ s' : List String, s'.Perm s →
      (converter_tokens_para_amostras_chiller parseDT parseNum s').filterMap (fun a => a.dt) =
      (converter_tokens_para_amostras_chiller parseDT parseNum s).filterMap (fun a => a.dt)) ∧
    (((converter_tokens_para_amostras_chiller parseDT parseNum s).filterMap
        (fun a => a.dt)).Nodup →
      List.Sorted (· < ·)
        ((converter_tokens_para_amostras_chiller parseDT parseNum s).filterMap
          (fun a => a.dt))) ∧
    (∀ linhas : List AmostraChiller,
      (∀ a ∈ converter_tabela_para_amostras_chiller_saida linhas, a.dt.isSome) ∧
      List.Sorted (· ≤ ·)
        ((converter_tabela_para_amostras_chiller_saida linhas).filterMap (fun a => a.dt)) ∧
      (∀ linhas' : List AmostraChiller, linhas'.Perm linhas →
        (converter_tabela_para_amostras_chiller_saida linhas').filterMap (fun a => a.dt) =
        (converter_tabela_para_amostras_chiller_saida linhas).filterMap (fun a => a.dt)) ∧
      (((converter_tabela_para_amostras_chiller_saida linhas).filterMap
          (fun a => a.dt)).Nodup →
        List.Sorted (· < ·)
          ((converter_tabela_para_amostras_chiller_saida linhas).filterMap
            (fun a => a.dt)))) := by
  refine ⟨converter_tokens_isSome parseDT parseNum s,
    converter_tokens_sorted_le parseDT parseNum s,
    fun s' hp => converter_tokens_dts_perm parseDT parseNum hp, ?_, ?_⟩
  · intro hnd
    exact pairwise_lt_of_le_nodup (converter_tokens_sorted_le parseDT parseNum s) hnd
  · intro linhas
    refine ⟨fun a ha => isSome_of_mem_ordenarPorDt ha, ordenarPorDt_sorted_le linhas,
      fun linhas' hp => ordenarPorDt_dts_perm hp, ?_⟩
    intro hnd
    exact pairwise_lt_of_le_nodup (ordenarPorDt_sorted_le linhas) hnd

/-- C1 counterexample — two flattened rows with the same parsed
timestamp: both survive (no deduplication), so the output timestamp
sequence `[0, 0]` is not strictly ascending and not unique. -/
theorem c1_contraexemplo :
    ((converter_tokens_para_amostras_chiller (fun _ => some 0) (fun _ => none)
        ["a b c d e f", "a b c d e f"]).filterMap (fun a => a.dt)) = [0, 0] ∧
    ¬ List.Sorted (· < ·) ([0, 0] : List ℤ) := by
  constructor
  · decide
  · decide

/-- C1 witness: on both paths, rows arriving in reverse chronological
order come out sorted strictly ascending (their timestamps are
distinct), reordering the input rows leaves the output timestamp
sequence unchanged, and on the tabular path a row whose timestamp
failed to parse is dropped. -/
theorem c1_testemunha :
    (converter_tokens_para_amostras_chiller
        (fun s => if s = "d1 t1" then some 1 else if s = "d2 t2" then some 2 else none)
        (fun _ => none) ["d2 t2 x x x x", "d1 t1 x x x x"]).filterMap (fun a => a.dt) =
      [1, 2] ∧
    List.Sorted (· < ·)
      ((converter_tokens_para_amostras_chiller
        (fun s => if s = "d1 t1" then some 1 else if s = "d2 t2" then some 2 else none)
        (fun _ => none) ["d2 t2 x x x x", "d1 t1 x x x x"]).filterMap (fun a => a.dt)) ∧
    (converter_tokens_para_amostras_chiller
        (fun s => if s = "d1 t1" then some 1 else if s = "d2 t2" then some 2 else none)
        (fun _ => none) ["d1 t1 x x x x", "d2 t2 x x x x"]).filterMap (fun a => a.dt) =
    (converter_tokens_para_amostras_chiller
        (fun s => if s = "d1 t1" then some 1 else if s = "d2 t2" then some 2 else none)
        (fun _ => none) ["d2 t2 x x x x", "d1 t1 x x x x"]).filterMap (fun a => a.dt) ∧
    (converter_tabela_para_amostras_chiller_saida
        [⟨some 2, none, none, none⟩, ⟨none, none, none, none⟩,
         ⟨some 1, none, none, none⟩]).filterMap (fun a => a.dt) = [1, 2] ∧
    (converter_tabela_para_amostras_chiller_saida
        [⟨some 1, none, none, none⟩, ⟨some 2, none, none, none⟩,
         ⟨none, none, none, none⟩]).filterMap (fun a => a.dt) =
    (converter_tabela_para_amostras_chiller_saida
        [⟨some 2, none, none, none⟩, ⟨none, none, none, none⟩,
         ⟨some 1, none, none, none⟩]).filterMap (fun a => a.dt) ∧
    List.Sorted (· < ·)
      ((converter_tabela_para_amostras_chiller_saida
        [⟨some 2, none, none, none⟩, ⟨none, none, none, none⟩,
         ⟨some 1, none, none, none⟩]).filterMap (fun a => a.dt)) := by
  have h := c1_normalizacao_timestamps
    (fun s => if s = "d1 t1" then some 1 else if s = "d2 t2" then some 2 else none)
    (fun _ => none) ["d2 t2 x x x x", "d1 t1 x x x x"]
  have ht := h.2.2.2.2
    [⟨some 2, none, none, none⟩, ⟨none, none, none, none⟩, ⟨some 1, none, none, none⟩]
  exact ⟨by decide, h.2.2.2.1 (by decide), h.2.2.1 _ (by decide),
    by decide, ht.2.2.1 _ (by decide), ht.2.2.2 (by decide)⟩

/-!
## Monthly aggregation (`tratamento_dados.py`, lines 430-450)

A parsed sample carries the year and month number of its `dt`, the
(possibly unparsed) electric power and the per-row step in hours.
`agregar_consumo_e_horas_chiller` groups by `(Ano, Mês)` — the month
name via `MES_NUM_PARA_PT`, NaN names being dropped by `groupby` —
sums the on-row contributions, keeps months in `MESES_ORDEM` and sorts
by year and canonical month order.
-/

/-- `MES_NUM_PARA_PT` (`tratamento_dados.py`, lines 32-35), a
month-number-to-name dictionary accessed with `.get` (None outside
1-12). -/
def MES_NUM_PARA_PT (n : ℕ) : Option String :=
  ([(1, "Janeiro"), (2, "Fevereiro"), (3, "Março"), (4, "Abril"), (5, "Maio"), (6, "Junho"),
    (7, "Julho"), (8, "Agosto"), (9, "Setembro"), (10, "Outubro"), (11, "Novembro"),
    (12, "Dezembro")] : List (ℕ × String)).lookup n

/-- `MESES_ORDEM` (`utils.py`, lines 55-58). -/
def MESES_ORDEM : List String :=
  ["Janeiro", "Fevereiro", "Março", "Abril", "Maio", "Junho",
   "Julho", "Agosto", "Setembro", "Outubro", "Novembro", "Dezembro"]

/-- One row of `carregar_amostras_chiller`'s output as consumed by the
aggregation: the year and month number of `dt`, the electric power
(`none` when missing or failing numeric parsing) and `step_h`. -/
structure AmostraAgregacao where
  ano : ℤ
  mesNum : ℕ
  potElet : Option ℚ
  step_h : ℚ
deriving DecidableEq

/-- One output row `[Ano, Mês, Consumo (KWh), Horas Trabalhadas (h)]`. -/
structure LinhaMensal where
  ano : ℤ
  mes : String
  consumo : ℚ
  horas : ℚ
deriving DecidableEq

/-- `pot = pd.to_numeric(...).fillna(0)` (`tratamento_dados.py`,
line 436). -/
def potenciaEfetiva (a : AmostraAgregacao) : ℚ := a.potElet.getD 0

/-- `kwh_linha = (pot * step_h).where(ligado, 0.0)` with
`ligado = pot > potencia_min_kw` (lines 437 and 443). -/
def contribuicaoKwh (thr : ℚ) (a : AmostraAgregacao) : ℚ :=
  if potenciaEfetiva a > thr then potenciaEfetiva a * a.step_h else 0

/-- `h_linha = step_h.where(ligado, 0.0)` (line 444). -/
def contribuicaoHoras (thr : ℚ) (a : AmostraAgregacao) : ℚ :=
  if potenciaEfetiva a > thr then a.step_h else 0

/-- The distinct `(Ano, Mês)` keys of the groupby (line 446); a sample
whose month number has no name (`NaN` key) creates no group. -/
def chavesMensais (parsed : List AmostraAgregacao) : List (ℤ × String) :=
  (parsed.filterMap (fun a => (MES_NUM_PARA_PT a.mesNum).map (fun nome => (a.ano, nome)))).dedup

/-- The final sort order: by year, then canonical month position
(lines 449-450). -/
def chaveLe (k k' : ℤ × String) : Prop :=
  k.1 < k'.1 ∨ (k.1 = k'.1 ∧ MESES_ORDEM.indexOf k.2 ≤ MESES_ORDEM.indexOf k'.2)

instance : DecidableRel chaveLe := fun k k' => by
  unfold chaveLe
  infer_instance

instance : IsTotal (ℤ × String) chaveLe := by
  constructor
  intro a b
  rcases lt_trichotomy a.1 b.1 with h | h | h
  · exact Or.inl (Or.inl h)
  · rcases le_total (MESES_ORDEM.indexOf a.2) (MESES_ORDEM.indexOf b.2) with h2 | h2
    · exact Or.inl (Or.inr ⟨h, h2⟩)
    · exact Or.inr (Or.inr ⟨h.symm, h2⟩)
  · exact Or.inr (Or.inl h)

instance : IsTrans (ℤ × String) chaveLe := by
  constructor
  intro a b c hab hbc
  rcases hab with h1 | ⟨h1, h1'⟩
  · rcases hbc with h2 | ⟨h2, _⟩
    · exact Or.inl (h1.trans h2)
    · exact Or.inl (h2 ▸ h1)
  · rcases hbc with h2 | ⟨h2, h2'⟩
    · exact Or.inl (h1 ▸ h2)
    · exact Or.inr ⟨h1.trans h2, h1'.trans h2'⟩

/-- `agregar_consumo_e_horas_chiller` (`tratamento_dados.py`,
lines 430-450), given the parsed samples: one output row per distinct
`(Ano, Mês)` key of the samples (absent months are simply absent),
summing the on-row energy and hour contributions, restricted to
canonical month names and sorted by `(Ano, Mês)`. -/
def agregar_consumo_e_horas_chiller (thr : ℚ) (parsed : List AmostraAgregacao) :
    List LinhaMensal :=
  (List.insertionSort chaveLe ((chavesMensais parsed).filter (fun k => k.2 ∈ MESES_ORDEM))).map
    (fun k =>
      { ano := k.1, mes := k.2
        consumo := ((parsed.filter
          (fun a => a.ano = k.1 ∧ MES_NUM_PARA_PT a.mesNum = some k.2)).map
            (contribuicaoKwh thr)).sum
        horas := ((parsed.filter
          (fun a => a.ano = k.1 ∧ MES_NUM_PARA_PT a.mesNum = some k.2)).map
            (contribuicaoHoras thr)).sum })

lemma lookup_mem_snd {a : ℕ} {b : String} :
    ∀ l : List (ℕ × String), l.lookup a = some b → b ∈ l.map Prod.snd := by
  intro l
  induction l with
  | nil => intro h; cases h
  | cons p l ih =>
    intro h
    rcases p with ⟨k, v⟩
    rw [List.lookup_cons] at h
    by_cases hbe : a == k
    · rw [hbe] at h
      cases h
      exact List.mem_cons_self _ _
    · rw [Bool.eq_false_iff.mpr hbe] at h
      exact List.mem_cons_of_mem _ (ih h)

lemma mes_pt_em_ordem {n : ℕ} {s : String} (h : MES_NUM_PARA_PT n = some s) :
    s ∈ MESES_ORDEM := by
  have := lookup_mem_snd _ h
  simpa [MESES_ORDEM] using this

lemma soma_se (thr : ℚ) (f : AmostraAgregacao → ℚ) :
    ∀ l : List AmostraAgregacao,
      (l.map (fun a => if potenciaEfetiva a > thr then f a else 0)).sum =
        ((l.filter (fun a => potenciaEfetiva a > thr)).map f).sum := by
  intro l
  induction l with
  | nil => rfl
  | cons a l ih =>
    by_cases h : potenciaEfetiva a > thr
    · simp [List.filter_cons, h, ih]
    · simp [List.filter_cons, h, ih]

lemma filter_filter_and (p q : AmostraAgregacao → Bool) :
    ∀ l : List AmostraAgregacao, (l.filter p).filter q = l.filter (fun a => p a && q a) := by
  intro l
  induction l with
  | nil => rfl
  | cons a l ih =>
    by_cases h : p a
    · by_cases h2 : q a
      · simp [List.filter_cons, h, h2, ih]
      · simp [List.filter_cons, h, h2, ih]
    · simp [List.filter_cons, h, ih]

/-- C5 (amended) — monthly aggregation: a `(year, canonical month)` row
is present in the output exactly when some sample carries that key
(months with no samples are absent, not zero-filled), and every output
row's consumption and hours are the sums of `electricPowerKW *
stepHours` and of `stepHours` over exactly the samples of its key whose
effective power is strictly above the threshold (all other samples of
the key contribute 0 to both). -/
theorem c5_agregacao_mensal (thr : ℚ) (parsed : List AmostraAgregacao)
    (y : ℤ) (nome : String) :
    ((∃ row ∈ agregar_consumo_e_horas_chiller thr parsed, row.ano = y ∧ row.mes = nome) ↔
      (∃ a ∈ parsed, a.ano = y ∧ MES_NUM_PARA_PT a.mesNum = some nome)) ∧
    (∀ row ∈ agregar_consumo_e_horas_chiller thr parsed,
      row.consumo = ((parsed.filter (fun a => (a.ano = row.ano ∧
          MES_NUM_PARA_PT a.mesNum = some row.mes) ∧ potenciaEfetiva a > thr)).map
            (fun a => potenciaEfetiva a * a.step_h)).sum ∧
      row.horas = ((parsed.filter (fun a => (a.ano = row.ano ∧
          MES_NUM_PARA_PT a.mesNum = some row.mes) ∧ potenciaEfetiva a > thr)).map
            (fun a => a.step_h)).sum) := by
  constructor
  · constructor
    · rintro ⟨row, hrow, hy, hm⟩
      rcases List.mem_map.mp hrow with ⟨k, hk, hmk⟩
      have hk3 : k ∈ chavesMensais parsed :=
        (List.mem_filter.mp ((List.mem_insertionSort chaveLe).mp hk)).1
      rcases List.mem_filterMap.mp (List.mem_dedup.mp hk3) with ⟨a, ha, hfa⟩
      rcases Option.map_eq_some'.mp hfa with ⟨nome', hn', hk'⟩
      subst hmk
      subst hk'
      have hm' : nome' = nome := hm
      have hy' : a.ano = y := hy
      exact ⟨a, ha, hy', by rw [hn', hm']⟩
    · rintro ⟨a, ha, hy, hm⟩
      refine ⟨_, List.mem_map.mpr ⟨(y, nome), ?_, rfl⟩, rfl, rfl⟩
      refine (List.mem_insertionSort chaveLe).mpr (List.mem_filter.mpr
        ⟨List.mem_dedup.mpr (List.mem_filterMap.mpr ⟨a, ha, ?_⟩),
         decide_eq_true (mes_pt_em_ordem hm)⟩)
      rw [hm, hy]
      rfl
  · intro row hrow
    rcases List.mem_map.mp hrow with ⟨k, hk, hmk⟩
    subst hmk
    dsimp only
    constructor
    · have h1 : ((parsed.filter
          (fun a => a.ano = k.1 ∧ MES_NUM_PARA_PT a.mesNum = some k.2)).map
            (contribuicaoKwh thr)).sum =
          (((parsed.filter (fun a => a.ano = k.1 ∧ MES_NUM_PARA_PT a.mesNum = some k.2)).filter
            (fun a => potenciaEfetiva a > thr)).map
              (fun a => potenciaEfetiva a * a.step_h)).sum :=
        soma_se thr (fun a => potenciaEfetiva a * a.step_h) _
      rw [h1, filter_filter_and]
      simp only [Bool.decide_and]
    · have h1 : ((parsed.filter
          (fun a => a.ano = k.1 ∧ MES_NUM_PARA_PT a.mesNum = some k.2)).map
            (contribuicaoHoras thr)).sum =
          (((parsed.filter (fun a => a.ano = k.1 ∧ MES_NUM_PARA_PT a.mesNum = some k.2)).filter
            (fun a => potenciaEfetiva a > thr)).map
              (fun a => a.step_h)).sum :=
        soma_se thr (fun a => a.step_h) _
      rw [h1, filter_filter_and]
      simp only [Bool.decide_and]

/-- C5 counterexample — the claim's scenario: two samples 5 minutes
apart with powers 10 kW and 20 kW at threshold 0 give inferred step 5
minutes and monthly consumption 2.5 kWh, but the operating hours are
exactly `2 * 5/60 = 1/6` h, not the claimed `0.1667`. -/
theorem c5_contraexemplo :
    estimar_intervalo_de_amostragem_minutos [0, 5] = 5 ∧
    agregar_consumo_e_horas_chiller 0
      [⟨2024, 7, some 10, 5/60⟩, ⟨2024, 7, some 20, 5/60⟩] =
      [⟨2024, "Julho", 5/2, 1/6⟩] ∧
    (1/6 : ℚ) ≠ 1667/10000 := by
  refine ⟨?_, ?_, by norm_num⟩
  · have hf : ((deltasConsecutivos [0, 5]).filter (fun d => 0 < d ∧ d ≤ 60)) = [5] := by
      norm_num [deltasConsecutivos]
    unfold estimar_intervalo_de_amostragem_minutos
    rw [hf]
    have hm : mediana [5] = 5 := by
      norm_num [mediana, quantil, List.insertionSort, List.orderedInsert]
    rw [if_neg (by simp), hm]
    norm_num [passoMaisProximo, candidatosPasso]
  · have hk : List.insertionSort chaveLe ((chavesMensais
        ([⟨2024, 7, some 10, 5/60⟩, ⟨2024, 7, some 20, 5/60⟩] :
          List AmostraAgregacao)).filter (fun k => k.2 ∈ MESES_ORDEM)) =
        [(2024, "Julho")] := by decide
    unfold agregar_consumo_e_horas_chiller
    rw [hk]
    simp only [List.map_cons, List.map_nil, List.cons.injEq, and_true, LinhaMensal.mk.injEq]
    have hl : MES_NUM_PARA_PT 7 = some "Julho" := by decide
    have hp1 : potenciaEfetiva ⟨2024, 7, some 10, 1/12⟩ > 0 := by norm_num [potenciaEfetiva]
    have hp2 : potenciaEfetiva ⟨2024, 7, some 20, 1/12⟩ > 0 := by norm_num [potenciaEfetiva]
    have hck1 : contribuicaoKwh 0 ⟨2024, 7, some 10, 1/12⟩ = 10 * (1/12 : ℚ) := by
      unfold contribuicaoKwh
      rw [if_pos hp1]
      norm_num [potenciaEfetiva]
    have hck2 : contribuicaoKwh 0 ⟨2024, 7, some 20, 1/12⟩ = 20 * (1/12 : ℚ) := by
      unfold contribuicaoKwh
      rw [if_pos hp2]
      norm_num [potenciaEfetiva]
    have hch1 : contribuicaoHoras 0 ⟨2024, 7, some 10, 1/12⟩ = (1/12 : ℚ) := by
      unfold contribuicaoHoras
      rw [if_pos hp1]
    have hch2 : contribuicaoHoras 0 ⟨2024, 7, some 20, 1/12⟩ = (1/12 : ℚ) := by
      unfold contribuicaoHoras
      rw [if_pos hp2]
    constructor <;>
      norm_num [hl, List.filter_cons, List.filter_nil, hck1, hck2, hch1, hch2]

/-- C5 witness: the (2024, Julho) pair carried by the two samples is
present in the aggregation output, while a (2023, Janeiro) pair with no
samples is absent rather than zero-filled. -/
theorem c5_testemunha :
    (∃ row ∈ agregar_consumo_e_horas_chiller 0
        [⟨2024, 7, some 10, 5/60⟩, ⟨2024, 7, some 20, 5/60⟩],
      row.ano = 2024 ∧ row.mes = "Julho") ∧
    ¬ (∃ row ∈ agregar_consumo_e_horas_chiller 0
        [⟨2024, 7, some 10, 5/60⟩, ⟨2024, 7, some 20, 5/60⟩],
      row.ano = 2023 ∧ row.mes = "Janeiro") := by
  constructor
  · exact (c5_agregacao_mensal 0
      [⟨2024, 7, some 10, 5/60⟩, ⟨2024, 7, some 20, 5/60⟩] 2024 "Julho").1.mpr
      ⟨⟨2024, 7, some 10, 5/60⟩, List.mem_cons_self _ _, rfl, by decide⟩
  · intro hex
    rcases (c5_agregacao_mensal 0
        [⟨2024, 7, some 10, 5/60⟩, ⟨2024, 7, some 20, 5/60⟩] 2023 "Janeiro").1.mp hex with
      ⟨a, ha, hy, _⟩
    rcases List.mem_cons.mp ha with h | h
    · rw [h] at hy
      exact absurd hy (by decide)
    · rcases List.mem_cons.mp h with h2 | h2
      · rw [h2] at hy
        exact absurd hy (by decide)
      · exact absurd h2 (List.not_mem_nil a)

/-- `pot.fillna(0)` followed by the strict `pot > potencia_min_kw` test:
a sample with missing power is treated as power 0. -/
def substituirPotencia (b : AmostraAgregacao) : AmostraAgregacao :=
  if b.potElet = none then { b with potElet := some 0 } else b

lemma substituirPotencia_campos (b : AmostraAgregacao) :
    (substituirPotencia b).ano = b.ano ∧ (substituirPotencia b).mesNum = b.mesNum ∧
    (substituirPotencia b).step_h = b.step_h ∧
    potenciaEfetiva (substituirPotencia b) = potenciaEfetiva b := by
  unfold substituirPotencia potenciaEfetiva
  by_cases h : b.potElet = none <;> simp [h]

/-- C10 — in the monthly aggregation, a sample whose electric power is
missing or failed numeric parsing is treated as power 0 (replacing every
such sample's power by 0 leaves the whole aggregation unchanged), and
for a non-negative threshold such a sample counts as off: it contributes
zero energy and zero operating hours.  The output totals are
total rational values by construction, never null. -/
theorem c10_potencia_ausente (thr : ℚ) (parsed : List AmostraAgregacao)
    (a : AmostraAgregacao) :
    agregar_consumo_e_horas_chiller thr (parsed.map substituirPotencia) =
      agregar_consumo_e_horas_chiller thr parsed ∧
    (0 ≤ thr → a.potElet = none →
      contribuicaoKwh thr a = 0 ∧ contribuicaoHoras thr a = 0) := by
  constructor
  · unfold agregar_consumo_e_horas_chiller
    have hch : chavesMensais (parsed.map substituirPotencia) = chavesMensais parsed := by
      unfold chavesMensais
      rw [List.filterMap_map]
      have hfun : ((fun a : AmostraAgregacao => (MES_NUM_PARA_PT a.mesNum).map
          (fun nome => (a.ano, nome))) ∘ substituirPotencia) =
          (fun a : AmostraAgregacao => (MES_NUM_PARA_PT a.mesNum).map
            (fun nome => (a.ano, nome))) := by
        funext b
        show (MES_NUM_PARA_PT (substituirPotencia b).mesNum).map
            (fun nome => ((substituirPotencia b).ano, nome)) =
          (MES_NUM_PARA_PT b.mesNum).map (fun nome => (b.ano, nome))
        rw [(substituirPotencia_campos b).1, (substituirPotencia_campos b).2.1]
      rw [hfun]
    rw [hch]
    apply List.map_congr_left
    intro k _
    have hfil : (parsed.map substituirPotencia).filter
        (fun a => a.ano = k.1 ∧ MES_NUM_PARA_PT a.mesNum = some k.2) =
        (parsed.filter (fun a => a.ano = k.1 ∧ MES_NUM_PARA_PT a.mesNum = some k.2)).map
          substituirPotencia := by
      rw [List.filter_map]
      have hfun2 : ((fun a : AmostraAgregacao =>
          decide (a.ano = k.1 ∧ MES_NUM_PARA_PT a.mesNum = some k.2)) ∘ substituirPotencia) =
          (fun a : AmostraAgregacao =>
            decide (a.ano = k.1 ∧ MES_NUM_PARA_PT a.mesNum = some k.2)) := by
        funext b
        show decide ((substituirPotencia b).ano = k.1 ∧
            MES_NUM_PARA_PT (substituirPotencia b).mesNum = some k.2) =
          decide (b.ano = k.1 ∧ MES_NUM_PARA_PT b.mesNum = some k.2)
        rw [(substituirPotencia_campos b).1, (substituirPotencia_campos b).2.1]
      rw [hfun2]
    have hkwh : contribuicaoKwh thr ∘ substituirPotencia = contribuicaoKwh thr := by
      funext b
      show contribuicaoKwh thr (substituirPotencia b) = contribuicaoKwh thr b
      unfold contribuicaoKwh
      rw [(substituirPotencia_campos b).2.2.2, (substituirPotencia_campos b).2.2.1]
    have hhr : contribuicaoHoras thr ∘ substituirPotencia = contribuicaoHoras thr := by
      funext b
      show contribuicaoHoras thr (substituirPotencia b) = contribuicaoHoras thr b
      unfold contribuicaoHoras
      rw [(substituirPotencia_campos b).2.2.2, (substituirPotencia_campos b).2.2.1]
    rw [hfil, List.map_map, List.map_map, hkwh, hhr]
  · intro hthr hnone
    unfold contribuicaoKwh contribuicaoHoras potenciaEfetiva
    rw [hnone]
    simp only [Option.getD_none]
    rw [if_neg (not_lt.mpr hthr), if_neg (not_lt.mpr hthr)]
    exact ⟨rfl, rfl⟩

/-- C10 witness: at the default threshold 0, a sample with missing
power contributes 0 kWh and 0 hours, and zero-filling the missing
powers of a concrete sample list leaves the aggregation output
unchanged. -/
theorem c10_testemunha :
    contribuicaoKwh 0 ⟨2024, 7, none, 5/60⟩ = 0 ∧
    contribuicaoHoras 0 ⟨2024, 7, none, 5/60⟩ = 0 ∧
    agregar_consumo_e_horas_chiller 0
      ([⟨2024, 7, none, 5/60⟩, ⟨2024, 7, some 20, 5/60⟩].map substituirPotencia) =
    agregar_consumo_e_horas_chiller 0
      [⟨2024, 7, none, 5/60⟩, ⟨2024, 7, some 20, 5/60⟩] := by
  have h := c10_potencia_ausente 0
    [⟨2024, 7, none, 5/60⟩, ⟨2024, 7, some 20, 5/60⟩] ⟨2024, 7, none, 5/60⟩
  have h2 := h.2 (le_refl 0) rfl
  exact ⟨h2.1, h2.2, h.1⟩
